import Mathlib

/-
Verification of `src/tempoai_mcp_server/utils/formatting.py` (Tempo AI MCP
server formatting utilities).

The Python module is embedded shallowly:

* Python values appearing in the API records are modelled by `PyVal`.
  Python floats are modelled as exact fractions `num / den` (with `den > 0`
  in well-formed records); `int` and `float` are kept distinct, as in
  Python, because `str()` renders them differently.
* Records (`dict[str, Any]`) are association lists in insertion order,
  which is exactly the iteration order of a Python `dict`.
* Operations that can raise in Python (`d[key]`, format specs such as
  `:.2f` on non-numeric values, `len`/slicing on non-strings, `/` on
  non-numeric values) are modelled in the `Except String` monad, with the
  error message naming the Python exception.  Total operations
  (`d.get(...)`, f-string interpolation without a format spec, truthiness)
  are plain functions.
* `datetime.fromisoformat` / `strftime` are modelled by an executable
  ISO-8601 parser and printer for the grammar exercised by this module.
* `math.log` forces the one noncomputable definition (`hrvScore`); every
  other definition is executable.
-/

set_option maxRecDepth 8000
set_option maxHeartbeats 2000000

/-- Python `datetime.datetime`: calendar fields plus microseconds and an
optional UTC offset in minutes (an aware datetime). -/
structure PyDateTime where
  year : Nat
  month : Nat
  day : Nat
  hour : Nat
  minute : Nat
  second : Nat
  micro : Nat
  utcOff : Option Int
deriving DecidableEq

/-- A Python value as it appears in the JSON-derived records handled by
`formatting.py`.  Floats are exact fractions `num / den`. -/
inductive PyVal where
  | none
  | bool (b : Bool)
  | int (n : Int)
  | float (num : Int) (den : Nat)
  | str (s : String)
  | dt (d : PyDateTime)
  | dict (entries : List (String × PyVal))
  | list (items : List PyVal)

/-- A Python `dict[str, Any]` record, in insertion order. -/
abbrev Record := List (String × PyVal)

/-- First binding of a key in an association list (Python dict keys are
unique, so this is dict lookup). -/
def assocFind {α : Type} : List (String × α) → String → Option α
  | [], _ => Option.none
  | (k, v) :: rest, key => if k = key then Option.some v else assocFind rest key

/-- Whether a key is present in the record (Python `key in d`). -/
def hasKey (r : Record) (k : String) : Bool :=
  (assocFind r k).isSome

/-- Python `d.get(key)`: the stored value, or `None` when the key is absent. -/
def pyGet (r : Record) (k : String) : PyVal :=
  (assocFind r k).getD PyVal.none

/-- Python `d.get(key, default)`: the stored value (even when it is `None`),
or the default only when the key is absent. -/
def pyGetD (r : Record) (k : String) (dflt : PyVal) : PyVal :=
  (assocFind r k).getD dflt

/-- Python `d[key]`: raises `KeyError` when the key is absent. -/
def pySub (r : Record) (k : String) : Except String PyVal :=
  match assocFind r k with
  | Option.some v => Except.ok v
  | Option.none => Except.error "KeyError"

/-- Python truthiness of a value. -/
def truthy : PyVal → Bool
  | .none => false
  | .bool b => b
  | .int n => n != 0
  | .float n _ => n != 0
  | .str s => !s.data.isEmpty
  | .dt _ => true
  | .dict entries => !entries.isEmpty
  | .list items => !items.isEmpty

/-- Whether the value is Python `None` (`v is None`). -/
def isNone : PyVal → Bool
  | .none => true
  | _ => false

/-- Numeric view of a value as a fraction: Python `int`, `float` and `bool`
all support arithmetic (`bool` is a subclass of `int`). -/
def PyVal.toNum : PyVal → Option (Int × Nat)
  | .int n => Option.some (n, 1)
  | .float n d => Option.some (n, d)
  | .bool b => Option.some (if b then 1 else 0, 1)
  | _ => Option.none

/-- Decimal digits of `Nat.repr`, left-padded with zeros to width `w`. -/
def padNat (w : Nat) (n : Nat) : String :=
  let s := Nat.repr n
  String.mk (List.replicate (w - s.length) '0') ++ s

/-- Decimal expansion digits of `num / den` (`num < den`), up to `fuel`
digits, stopping when the remainder is zero. -/
def decDigits (den : Nat) : Nat → Nat → List Char
  | _, 0 => []
  | num, fuel + 1 =>
    if num = 0 then []
    else
      Char.ofNat ('0'.toNat + num * 10 / den) :: decDigits den (num * 10 % den) fuel

/-- Python `str()` of a float.  CPython prints the shortest decimal string
that round-trips; for the decimal-valued fractions used in these records
that is the exact (terminating) decimal expansion, which is what this
renders (with the `.0` that Python keeps on integral floats). -/
def floatStr (num : Int) (den : Nat) : String :=
  let sign := if num < 0 then "-" else ""
  let a := num.natAbs
  let frac := decDigits den (a % den) 17
  sign ++ Nat.repr (a / den) ++ "." ++ (if frac.isEmpty then "0" else String.mk frac)

/-- Python `str(datetime)`, which is `isoformat(sep=' ')`; micro/offset are
omitted in this model (no record field is rendered that way). -/
def dtStr (d : PyDateTime) : String :=
  padNat 4 d.year ++ "-" ++ padNat 2 d.month ++ "-" ++ padNat 2 d.day ++ " " ++
    padNat 2 d.hour ++ ":" ++ padNat 2 d.minute ++ ":" ++ padNat 2 d.second

/-- Python `str()` / f-string interpolation without a format spec.  Nested
containers are abbreviated (no record field renders a container through
`str()` in the module). -/
def pyStr : PyVal → String
  | .none => "None"
  | .bool true => "True"
  | .bool false => "False"
  | .int n => Int.repr n
  | .float n d => floatStr n d
  | .str s => s
  | .dt d => dtStr d
  | .dict _ => "<dict>"
  | .list _ => "<list>"

/-- Round `num / den` (`den > 0`) to the nearest integer, ties to even —
Python's rounding for float formatting and `round()`. -/
def roundHalfEven (num : Int) (den : Nat) : Int :=
  let q := num / (den : Int)
  let r := num % (den : Int)
  if 2 * r < (den : Int) then q
  else if 2 * r > (den : Int) then q + 1
  else if q % 2 = 0 then q else q + 1

/-- Python fixed-point formatting `f"{x:.pf}"` of the fraction `num / den`.
The sign comes from the input (Python renders `-0.0` with its sign). -/
def formatFixed (p : Nat) (num : Int) (den : Nat) : String :=
  let scaled := roundHalfEven (num * ((10 : Nat) ^ p : Nat)) den
  let sign := if num < 0 then "-" else ""
  let a := scaled.natAbs
  if p = 0 then sign ++ Nat.repr a
  else sign ++ Nat.repr (a / 10 ^ p) ++ "." ++ padNat p (a % 10 ^ p)

/-- Python `f"{v:.pf}"` on an arbitrary value: raises on non-numeric input
(in particular on `None`). -/
def pyFormatFixed (p : Nat) (v : PyVal) : Except String String :=
  match v.toNum with
  | Option.some (n, d) => Except.ok (formatFixed p n d)
  | Option.none => Except.error "TypeError: unsupported format string"

/-- Python `x / m` (true division) for a positive integer literal `m`:
numeric values produce a float, anything else raises `TypeError`. -/
def pyDivByNat (v : PyVal) (m : Nat) : Except String PyVal :=
  match v.toNum with
  | Option.some (n, d) => Except.ok (PyVal.float n (d * m))
  | Option.none => Except.error "TypeError: unsupported operand for /"

/-- Python `s.replace(pat, rep)` (all occurrences, left to right), by fuel
recursion on the character list. -/
def replaceAux (pat rep : List Char) : Nat → List Char → List Char
  | 0, s => s
  | _, [] => []
  | fuel + 1, c :: rest =>
    if pat ≠ [] && pat.isPrefixOf (c :: rest) then
      rep ++ replaceAux pat rep fuel ((c :: rest).drop pat.length)
    else
      c :: replaceAux pat rep fuel rest

/-- Python `s.replace(pat, rep)` on strings. -/
def pyReplace (s pat rep : String) : String :=
  String.mk (replaceAux pat.data rep.data s.data.length s.data)

/-- Whether `pat` occurs as a contiguous substring (Python `pat in s`),
by fuel recursion. -/
def containsAux (pat : List Char) : Nat → List Char → Bool
  | 0, s => pat.isPrefixOf s
  | fuel + 1, s =>
    pat.isPrefixOf s ||
      match s with
      | [] => false
      | _ :: rest => containsAux pat fuel rest

/-- Python `pat in s` for strings. -/
def strContains (s pat : String) : Bool :=
  containsAux pat.data s.data.length s.data

/-- Whether a character is an ASCII digit. -/
def isDigitCh (c : Char) : Bool :=
  '0' ≤ c && c ≤ '9'

/-- Numeric value of an ASCII digit. -/
def digitVal (c : Char) : Nat :=
  c.toNat - '0'.toNat

/-- Read exactly two ASCII digits. -/
def read2 : List Char → Option (Nat × List Char)
  | a :: b :: rest =>
    if isDigitCh a && isDigitCh b then Option.some (digitVal a * 10 + digitVal b, rest)
    else Option.none
  | _ => Option.none

/-- Read exactly four ASCII digits. -/
def read4 : List Char → Option (Nat × List Char)
  | a :: b :: c :: d :: rest =>
    if isDigitCh a && isDigitCh b && isDigitCh c && isDigitCh d then
      Option.some (digitVal a * 1000 + digitVal b * 100 + digitVal c * 10 + digitVal d, rest)
    else Option.none
  | _ => Option.none

/-- Consume one expected character. -/
def expectCh (c : Char) : List Char → Option (List Char)
  | x :: rest => if x = c then Option.some rest else Option.none
  | [] => Option.none

/-- Read a run of leading ASCII digits. -/
def readDigits : List Char → Nat × Nat × List Char
  | [] => (0, 0, [])
  | c :: rest =>
    if isDigitCh c then
      let (v, len, r) := readDigits rest
      (digitVal c * 10 ^ len + v, len + 1, r)
    else (0, 0, c :: rest)

/-- Gregorian leap year. -/
def isLeapYear (y : Nat) : Bool :=
  (y % 4 = 0 && y % 100 ≠ 0) || y % 400 = 0

/-- Number of days in a month. -/
def daysInMonth (y mo : Nat) : Nat :=
  if mo = 2 then (if isLeapYear y then 29 else 28)
  else if mo = 4 || mo = 6 || mo = 9 || mo = 11 then 30
  else 31

/-- Parse a UTC offset `±HH[:MM[:SS]]` at end of input, returning minutes. -/
def parseOffset : List Char → Option Int
  | sign :: rest =>
    if sign = '+' || sign = '-' then
      match read2 rest with
      | Option.none => Option.none
      | Option.some (hh, r1) =>
        let fin : Nat → Nat → Option Int := fun hh mm =>
          if hh ≤ 23 && mm ≤ 59 then
            let mins : Int := (hh : Int) * 60 + (mm : Int)
            Option.some (if sign = '-' then -mins else mins)
          else Option.none
        match r1 with
        | [] => fin hh 0
        | ':' :: r2 =>
          match read2 r2 with
          | Option.none => Option.none
          | Option.some (mm, r3) =>
            match r3 with
            | [] => fin hh mm
            | ':' :: r4 =>
              match read2 r4 with
              | Option.some (ss, []) => if ss ≤ 59 then fin hh mm else Option.none
              | _ => Option.none
            | _ => Option.none
        | _ => Option.none
    else Option.none
  | [] => Option.none

/-- Parse the time-of-day part `HH[:MM[:SS[.ffffff]]][±offset]` of an
ISO-8601 string, returning `(hour, minute, second, microsecond, offset)`. -/
def parseTimePart (cs : List Char) : Option (Nat × Nat × Nat × Nat × Option Int) :=
  match read2 cs with
  | Option.none => Option.none
  | Option.some (h, r1) =>
    let withOff : Nat → Nat → Nat → List Char → Option (Nat × Nat × Nat × Nat × Option Int) :=
      fun mi se mic r =>
        match r with
        | [] => Option.some (h, mi, se, mic, Option.none)
        | _ =>
          match parseOffset r with
          | Option.some off => Option.some (h, mi, se, mic, Option.some off)
          | Option.none => Option.none
    match r1 with
    | ':' :: r2 =>
      match read2 r2 with
      | Option.none => Option.none
      | Option.some (mi, r3) =>
        match r3 with
        | ':' :: r4 =>
          match read2 r4 with
          | Option.none => Option.none
          | Option.some (se, r5) =>
            match r5 with
            | '.' :: r6 =>
              let (v, len, r7) := readDigits r6
              if 1 ≤ len && len ≤ 6 then
                withOff mi se (v * 10 ^ (6 - len)) r7
              else Option.none
            | ',' :: r6 =>
              let (v, len, r7) := readDigits r6
              if 1 ≤ len && len ≤ 6 then
                withOff mi se (v * 10 ^ (6 - len)) r7
              else Option.none
            | _ => withOff mi se 0 r5
        | _ => withOff mi 0 0 r3
    | _ => withOff 0 0 0 r1

/-- Model of Python `datetime.fromisoformat` for the extended ISO-8601
grammar `YYYY-MM-DD[<sep>HH[:MM[:SS[.ffffff]]][±HH[:MM[:SS]]]]` (any single
separator character, as in CPython ≥ 3.11), with calendar and range
validation.  Returns `none` where CPython raises `ValueError`. -/
def fromisoformat (s : String) : Option PyDateTime :=
  match read4 s.data with
  | Option.none => Option.none
  | Option.some (y, r1) =>
    match expectCh '-' r1 with
    | Option.none => Option.none
    | Option.some r2 =>
      match read2 r2 with
      | Option.none => Option.none
      | Option.some (mo, r3) =>
        match expectCh '-' r3 with
        | Option.none => Option.none
        | Option.some r4 =>
          match read2 r4 with
          | Option.none => Option.none
          | Option.some (da, r5) =>
            let valid : Nat → Nat → Nat → Nat → Option Int → Option PyDateTime :=
              fun h mi se mic off =>
                if 1 ≤ y && 1 ≤ mo && mo ≤ 12 && 1 ≤ da && da ≤ daysInMonth y mo &&
                    h ≤ 23 && mi ≤ 59 && se ≤ 59 then
                  Option.some ⟨y, mo, da, h, mi, se, mic, off⟩
                else Option.none
            match r5 with
            | [] => valid 0 0 0 0 Option.none
            | _ :: timeChars =>
              match parseTimePart timeChars with
              | Option.none => Option.none
              | Option.some (h, mi, se, mic, off) => valid h mi se mic off

/-- Python `dt.strftime("%Y-%m-%d %H:%M:%S")` (zero-padded fields). -/
def strftimeYmdHMS (d : PyDateTime) : String :=
  dtStr d

/-- Translation of `_format_datetime` (formatting.py lines 97-109): `None`
becomes "N/A"; a string has any "Z" normalized to "+00:00" and is parsed as
ISO-8601, rendering `%Y-%m-%d %H:%M:%S` on success and returning the
original string on `ValueError`; a `datetime` is rendered directly; any
other value falls back to `str()`. -/
def _format_datetime : PyVal → String
  | .none => "N/A"
  | .str s =>
    match fromisoformat (pyReplace s "Z" "+00:00") with
    | Option.some d => strftimeYmdHMS d
    | Option.none => s
  | .dt d => strftimeYmdHMS d
  | v => pyStr v

/-- Seconds decomposition used by `_format_duration`: Python `//`, `%` and
`int()` on the float `n / d`, kept exact on the fraction.  All three
results are mathematical integers in Python as well. -/
def durParts (n : Int) (d : Nat) : Int × Int × Int :=
  let hours := n / ((d : Int) * 3600)
  let r3600 := n - hours * ((d : Int) * 3600)
  let minutes := r3600 / ((d : Int) * 60)
  let q60 := n / ((d : Int) * 60)
  let r60 := n - q60 * ((d : Int) * 60)
  let secs := r60 / (d : Int)
  (hours, minutes, secs)

/-- String assembly of `_format_duration` on the numeric value `n / d`. -/
def durString (n : Int) (d : Nat) : String :=
  let p := durParts n d
  if p.1 > 0 then
    Int.repr p.1 ++ "h " ++ Int.repr p.2.1 ++ "m " ++ Int.repr p.2.2 ++ "s"
  else if p.2.1 > 0 then
    Int.repr p.2.1 ++ "m " ++ Int.repr p.2.2 ++ "s"
  else
    Int.repr p.2.2 ++ "s"

/-- Translation of `_format_duration` (lines 112-123): `None` gives "N/A";
a numeric value is decomposed by `// 3600`, `(% 3600) // 60`, `% 60` with
`int()` truncation; non-numeric input raises `TypeError` at `seconds // 3600`. -/
def _format_duration (seconds : PyVal) : Except String String :=
  match seconds with
  | .none => Except.ok "N/A"
  | v =>
    match v.toNum with
    | Option.some (n, d) => Except.ok (durString n d)
    | Option.none => Except.error "TypeError: unsupported operand for //"

/-- Translation of `_format_distance` (lines 126-132): `None` gives "N/A";
at least 1000 m renders `f"{meters / 1000:.2f} km"`, else `f"{meters:.0f} m"`;
non-numeric input raises `TypeError` at the comparison. -/
def _format_distance (meters : PyVal) : Except String String :=
  match meters with
  | .none => Except.ok "N/A"
  | v =>
    match v.toNum with
    | Option.some (n, d) =>
      if n ≥ 1000 * (d : Int) then Except.ok (formatFixed 2 n (d * 1000) ++ " km")
      else Except.ok (formatFixed 0 n d ++ " m")
    | Option.none => Except.error "TypeError: unsupported comparison"

/-- Translation of `_get_value` (lines 135-140) at its default
`default="N/A"` (every call site uses the default). -/
def _get_value (data : Record) (key : String) : String :=
  let value := pyGet data key
  if isNone value then "N/A" else pyStr value

/-- Translation of `_format_percentage` (lines 168-172). -/
def _format_percentage (value : PyVal) : Except String String :=
  match value with
  | .none => Except.ok "N/A"
  | v =>
    match pyFormatFixed 1 v with
    | Except.ok s => Except.ok (s ++ "%")
    | Except.error e => Except.error e

/-- Python `round(x)` on a real value: nearest integer, ties to even
(banker's rounding, CPython's default `round`). -/
noncomputable def pyRound (x : ℝ) : Int :=
  haveI := Classical.propDecidable (Int.fract x = 1 / 2)
  if Int.fract x = 1 / 2 then (if ⌊x⌋ % 2 = 0 then ⌊x⌋ else ⌊x⌋ + 1)
  else round x

/-- Value of `round(math.log(rmssd) * 20)` for the numeric value `n / d`,
with `math.log` modelled as the exact real logarithm. -/
noncomputable def hrvScore (n : Int) (d : Nat) : Int :=
  pyRound (Real.log ((n : ℝ) / (d : ℝ)) * 20)

/-- Translation of `_calculate_hrv_score` (lines 175-191): `None` or a
non-positive value yields `None` (no score); a positive value yields
`round(log(rmssd) * 20)`; a non-numeric value raises `TypeError` at the
`rmssd <= 0` comparison. -/
noncomputable def _calculate_hrv_score (rmssd : PyVal) : Except String (Option Int) :=
  match rmssd with
  | .none => Except.ok Option.none
  | v =>
    match v.toNum with
    | Option.some (n, d) =>
      if n ≤ 0 then Except.ok Option.none
      else Except.ok (Option.some (hrvScore n d))
    | Option.none => Except.error "TypeError: unsupported comparison"

/-- Zone name table `HR_ZONE_NAMES` (lines 12-18). -/
def HR_ZONE_NAMES : List (String × String) :=
  [("Z1", "Z1 Recovery"), ("Z2", "Z2 Endurance"), ("Z3", "Z3 Tempo"),
   ("Z4", "Z4 Threshold"), ("Z5", "Z5 VO2 Max")]

/-- Zone name table `POWER_ZONE_NAMES` (lines 20-29). -/
def POWER_ZONE_NAMES : List (String × String) :=
  [("Z1", "Z1 Recovery"), ("Z2", "Z2 Endurance"), ("Z3", "Z3 Tempo"),
   ("SS", "SS Sweet Spot"), ("Z4", "Z4 Threshold"), ("Z5", "Z5 VO2 Max"),
   ("Z6", "Z6 Anaerobic"), ("Z7", "Z7 Neuromuscular")]

/-- Zone name table `TEMPERATURE_ZONE_NAMES` (lines 31-39). -/
def TEMPERATURE_ZONE_NAMES : List (String × String) :=
  [("z1_freezing", "Freezing"), ("z2_cold", "Cold"), ("z3_cool", "Cool"),
   ("z4_mild", "Mild"), ("z5_warm", "Warm"), ("z6_hot", "Hot"),
   ("z7_extreme", "Extreme")]

/-- Zone name table `CORE_TEMPERATURE_ZONE_NAMES` (lines 41-48). -/
def CORE_TEMPERATURE_ZONE_NAMES : List (String × String) :=
  [("z1_low", "Low"), ("z2_normal", "Normal"), ("z3_moderate", "Moderate"),
   ("z4_elevated", "Elevated"), ("z5_high", "High"), ("z6_very_high", "Very High")]

/-- Zone name table `SKIN_TEMPERATURE_ZONE_NAMES` (lines 50-57). -/
def SKIN_TEMPERATURE_ZONE_NAMES : List (String × String) :=
  [("z1_cool", "Cool"), ("z2_mild", "Mild"), ("z3_normal", "Normal"),
   ("z4_warm", "Warm"), ("z5_hot", "Hot"), ("z6_very_hot", "Very Hot")]

/-- Zone name table `HEAT_STRAIN_ZONE_NAMES` (lines 59-64). -/
def HEAT_STRAIN_ZONE_NAMES : List (String × String) :=
  [("z1_no_strain", "No Strain"), ("z2_moderate", "Moderate"), ("z3_high", "High"),
   ("z4_extremely_high", "Extremely High")]

/-- The 26 power-duration benchmark labels `POWER_DURATION_BENCHMARKS`
(lines 67-94), in canonical order "1s" through "5h". -/
def POWER_DURATION_BENCHMARKS : List String :=
  ["1s", "3s", "5s", "10s", "12s", "15s", "20s", "30s", "45s",
   "1min", "2min", "3min", "5min", "8min", "10min", "12min", "15min",
   "20min", "30min", "40min", "60min", "90min", "2h", "3h", "4h", "5h"]

/-- Body of the `for zone_key, seconds in zone_data.items()` loop of
`_format_time_in_zone`: one indented line per entry, in insertion order.
`_format_duration` can raise on non-numeric seconds. -/
def zoneLines (names : List (String × String)) :
    List (String × PyVal) → Except String (List String)
  | [] => Except.ok []
  | (zone_key, seconds) :: rest => do
    let ds ← _format_duration seconds
    let tail ← zoneLines names rest
    Except.ok (("  " ++ ((assocFind names zone_key).getD zone_key) ++ ": " ++ ds) :: tail)

/-- Translation of `_format_time_in_zone` (lines 143-165): a missing,
falsy or non-dict `zone_data` yields no lines; otherwise a header line from
`label` followed by one line per entry.  Every call site in the module
passes a zone-name table, so `zone_names` is not optional here. -/
def _format_time_in_zone (zone_data : PyVal) (label : String)
    (zone_names : List (String × String)) : Except String (List String) :=
  match zone_data with
  | .dict entries =>
    if entries.isEmpty then Except.ok []
    else do
      let body ← zoneLines zone_names entries
      Except.ok ((label ++ ":") :: body)
  | _ => Except.ok []

/-- Recurring source pattern `if x is not None: lines.append(g(fmt(x)))`
on an already-fetched value `x` (e.g. `elapsed = lap.get("elapsed_time")`). -/
def guardVal (v : PyVal) (fmt : PyVal → Except String String)
    (g : String → List String) : Except String (List String) :=
  if isNone v then Except.ok []
  else do
    let s ← fmt v
    Except.ok (g s)

/-- Recurring source pattern
`if r.get(k) is not None: lines.append(g(fmt(r[k])))` — a subscript guarded
by a non-`None` check, rendered through a fallible formatter such as a
`:.2f` format spec. -/
def guardSub (r : Record) (k : String) (fmt : PyVal → Except String String)
    (g : String → List String) : Except String (List String) :=
  if isNone (pyGet r k) then Except.ok []
  else do
    let v ← pySub r k
    let s ← fmt v
    Except.ok (g s)

/-- Recurring source pattern `if r.get(k) is not None: lines.append(g(r[k]))`
— a subscript guarded by a non-`None` check, rendered totally (plain
f-string interpolation). -/
def guardSubPlain (r : Record) (k : String) (g : PyVal → List String) :
    Except String (List String) :=
  if isNone (pyGet r k) then Except.ok []
  else do
    let v ← pySub r k
    Except.ok (g v)

/-- Recurring source pattern `if r.get(k): lines.append(g(r[k]))` — a
subscript guarded by truthiness, rendered totally. -/
def truthySub (r : Record) (k : String) (g : PyVal → List String) :
    Except String (List String) :=
  if truthy (pyGet r k) then do
    let v ← pySub r k
    Except.ok (g v)
  else Except.ok []

/-- Recurring source pattern `if r.get(k): lines.append(g(fmt(r[k])))` — a
subscript guarded by truthiness, rendered through a fallible formatter. -/
def truthySubFmt (r : Record) (k : String) (fmt : PyVal → Except String String)
    (g : String → List String) : Except String (List String) :=
  if truthy (pyGet r k) then do
    let v ← pySub r k
    let s ← fmt v
    Except.ok (g s)
  else Except.ok []

/-- Source pattern `f"{v:.1f}" if v is not None else "N/A"` of the CORE
sensor triples. -/
def fixedOrNA (v : PyVal) : Except String String :=
  if isNone v then Except.ok "N/A" else pyFormatFixed 1 v

/-- Translation of `format_workout_summary` (lines 199-233). -/
def format_workout_summary (workout : Record) : Except String String := do
  let start_time := _format_datetime (pyGet workout "start_time")
  let duration ← _format_duration (pyGet workout "duration_total_seconds")
  let distance ← _format_distance (pyGet workout "distance_meters")
  let base : List String :=
    ["Workout: " ++ pyStr (pyGetD workout "name" (PyVal.str "Unnamed")),
     "  ID: " ++ pyStr (pyGetD workout "id" (PyVal.str "N/A")),
     "  Type: " ++ pyStr (pyGetD workout "workout_type" (PyVal.str "Unknown")),
     "  Date: " ++ start_time,
     "  Duration: " ++ duration,
     "  Distance: " ++ distance]
  let np ← truthySub workout "power_normalized" fun v => ["  Norm Power: " ++ pyStr v ++ " W"]
  let tss ← truthySub workout "training_stress_score" fun v => ["  Load: " ++ pyStr v]
  let inten ← truthySubFmt workout "intensity_factor" (pyFormatFixed 2)
    fun s => ["  Intensity: " ++ s]
  let laps := pyGetD workout "laps" (PyVal.list [])
  let lapCount : List String :=
    match laps with
    | .list l => if l.isEmpty then [] else ["  Laps: " ++ Nat.repr l.length]
    | _ => []
  Except.ok (String.intercalate "\n" (base ++ np ++ tss ++ inten ++ lapCount))

/-- Translation of `format_workout_lap` (lines 236-335).  Each metric is
included only when present (non-`None`); within the Power, HR, Load and
Efficiency groups the present sub-metrics are joined with `" / "`. -/
def format_workout_lap (lap : Record) : Except String String := do
  let lap_index := pyGetD lap "lap_index" (PyVal.str "?")
  let lap_name := pyGet lap "name"
  let header := "  Lap " ++ pyStr lap_index ++
    (if truthy lap_name then " - " ++ pyStr lap_name else "")
  let elapsedL ← guardVal (pyGet lap "elapsed_time") _format_duration
    fun s => ["    Elapsed: " ++ s]
  let movingL ← guardVal (pyGet lap "moving_time") _format_duration
    fun s => ["    Moving: " ++ s]
  let distanceL ← guardVal (pyGet lap "distance") _format_distance
    fun s => ["    Distance: " ++ s]
  let elevL ← guardVal (pyGet lap "total_elevation_gain") (pyFormatFixed 0)
    fun s => ["    Elevation Gain: " ++ s ++ " m"]
  let avgSpeedL ← guardVal (pyGet lap "avg_speed") (pyFormatFixed 1)
    fun s => ["    Avg Speed: " ++ s ++ " m/s"]
  let maxSpeedL ← guardVal (pyGet lap "max_speed") (pyFormatFixed 1)
    fun s => ["    Max Speed: " ++ s ++ " m/s"]
  let pp1 ← guardSubPlain lap "avg_power" fun v => ["Avg " ++ pyStr v ++ "W"]
  let pp2 ← guardSubPlain lap "normalized_power" fun v => ["NP " ++ pyStr v ++ "W"]
  let pp3 ← guardSubPlain lap "max_power" fun v => ["Max " ++ pyStr v ++ "W"]
  let power_parts := pp1 ++ pp2 ++ pp3
  let powerL : List String :=
    if power_parts.isEmpty then []
    else ["    Power: " ++ String.intercalate " / " power_parts]
  let wkgL ← guardSub lap "watts_per_kg" (pyFormatFixed 2) fun s => ["    W/kg: " ++ s]
  let cadenceL ← guardSubPlain lap "avg_cadence" fun v => ["    Cadence: " ++ pyStr v ++ " rpm"]
  let hr1 ← guardSubPlain lap "avg_heart_rate" fun v => ["Avg " ++ pyStr v]
  let hr2 ← guardSubPlain lap "max_heart_rate" fun v => ["Max " ++ pyStr v]
  let hr_parts := hr1 ++ hr2
  let hrL : List String :=
    if hr_parts.isEmpty then []
    else ["    HR: " ++ String.intercalate " / " hr_parts ++ " bpm"]
  let ld1 ← guardSub lap "intensity_factor" (pyFormatFixed 2) fun s => ["IF " ++ s]
  let ld2 ← guardSub lap "variability_index" (pyFormatFixed 2) fun s => ["VI " ++ s]
  let ld3 ← guardSub lap "training_stress_score" (pyFormatFixed 0) fun s => ["TSS " ++ s]
  let load_parts := ld1 ++ ld2 ++ ld3
  let loadL : List String :=
    if load_parts.isEmpty then []
    else ["    Load: " ++ String.intercalate " / " load_parts]
  let ef1 ← guardSub lap "efficiency_factor" (pyFormatFixed 2) fun s => ["EF " ++ s]
  let ef2 ← guardSub lap "power_hr_ratio" (pyFormatFixed 2) fun s => ["P:HR " ++ s]
  let eff_parts := ef1 ++ ef2
  let effL : List String :=
    if eff_parts.isEmpty then []
    else ["    Efficiency: " ++ String.intercalate " / " eff_parts]
  let vamL ← guardSub lap "vam" (pyFormatFixed 0) fun s => ["    VAM: " ++ s ++ " m/h"]
  let workL ← guardSub lap "work_joules"
    (fun v => pyDivByNat v 1000 >>= fun q => pyFormatFixed 1 q)
    fun s => ["    Work: " ++ s ++ " kJ"]
  let calL ← guardSubPlain lap "calories" fun v => ["    Calories: " ++ pyStr v]
  Except.ok (String.intercalate "\n"
    (header :: (elapsedL ++ movingL ++ distanceL ++ elevL ++ avgSpeedL ++ maxSpeedL ++
      powerL ++ wkgL ++ cadenceL ++ hrL ++ loadL ++ effL ++ vamL ++ workL ++ calL)))

/-- General-information section of `format_workout_details` (lines 349-359). -/
def workoutGeneralLines (workout : Record) : Except String (List String) := do
  let desc ← truthySub workout "description" fun v => ["  Description: " ++ pyStr v]
  Except.ok
    (["General Information:",
      "  ID: " ++ pyStr (pyGetD workout "id" (PyVal.str "N/A")),
      "  Name: " ++ pyStr (pyGetD workout "name" (PyVal.str "Unnamed")),
      "  Type: " ++ pyStr (pyGetD workout "workout_type" (PyVal.str "Unknown")),
      "  Status: " ++ pyStr (pyGetD workout "status" (PyVal.str "N/A")),
      "  Start Time: " ++ _format_datetime (pyGet workout "start_time"),
      "  End Time: " ++ _format_datetime (pyGet workout "end_time")] ++ desc ++ [""])

/-- Duration section of `format_workout_details` (lines 361-366). -/
def workoutDurationLines (workout : Record) : Except String (List String) := do
  let tot ← _format_duration (pyGet workout "duration_total_seconds")
  let act ← _format_duration (pyGet workout "duration_active_seconds")
  let pau ← _format_duration (pyGet workout "duration_paused_seconds")
  Except.ok ["Duration:", "  Total: " ++ tot, "  Active: " ++ act, "  Paused: " ++ pau, ""]

/-- Distance-and-elevation section of `format_workout_details` (368-373). -/
def workoutDistanceLines (workout : Record) : Except String (List String) := do
  let dist ← _format_distance (pyGet workout "distance_meters")
  Except.ok
    ["Distance & Elevation:", "  Distance: " ++ dist,
     "  Elevation Gain: " ++ _get_value workout "elevation_gain" ++ " m",
     "  Elevation Loss: " ++ _get_value workout "elevation_loss" ++ " m", ""]

/-- Speed section of `format_workout_details` (375-379). -/
def workoutSpeedLines (workout : Record) : List String :=
  ["Speed:",
   "  Average Speed: " ++ _get_value workout "speed_average" ++ " m/s",
   "  Max Speed: " ++ _get_value workout "speed_max" ++ " m/s", ""]

/-- Power section of `format_workout_details` (381-390). -/
def workoutPowerLines (workout : Record) : List String :=
  ["Power:",
   "  Average Power: " ++ _get_value workout "power_average" ++ " W",
   "  Max Power: " ++ _get_value workout "power_max" ++ " W",
   "  Norm Power: " ++ _get_value workout "power_normalized" ++ " W",
   "  Estimated FTP: " ++ _get_value workout "estimated_ftp" ++ " W",
   "  Intensity: " ++ _get_value workout "intensity_factor",
   "  Variability Index (VI): " ++ _get_value workout "variability_index",
   "  L/R Balance: " ++ _get_value workout "left_right_balance", ""]

/-- Power-duration-curve section of `format_workout_details` (392-400):
rendered only for a truthy dict, looping over `POWER_DURATION_BENCHMARKS`
in canonical order and emitting only the labels present in the curve. -/
def pdcLines (pdc : PyVal) : List String :=
  match pdc with
  | .dict entries =>
    if entries.isEmpty then []
    else
      "Power Duration Curve:" ::
        (POWER_DURATION_BENCHMARKS.flatMap fun duration =>
          if hasKey entries duration then
            ["  " ++ duration ++ ": " ++ pyStr (pyGet entries duration) ++ " W"]
          else []) ++ [""]
  | _ => []

/-- Heart-rate section of `format_workout_details` (402-407). -/
def workoutHeartRateLines (workout : Record) : List String :=
  ["Heart Rate:",
   "  Average HR: " ++ _get_value workout "heart_rate_average" ++ " bpm",
   "  Max HR: " ++ _get_value workout "heart_rate_max" ++ " bpm",
   "  HR Recovery: " ++ _get_value workout "best_vagal_rebound" ++ " bpm", ""]

/-- Training-metrics section of `format_workout_details` (409-416). -/
def workoutTrainingLines (workout : Record) : List String :=
  ["Training Metrics:",
   "  Load: " ++ _get_value workout "training_stress_score",
   "  Efficiency Factor: " ++ _get_value workout "efficiency_factor",
   "  Estimated VO2max: " ++ _get_value workout "estimated_vo2max",
   "  Power:HR Ratio: " ++ _get_value workout "power_hr_ratio",
   "  Cadence: " ++ _get_value workout "cadence_average" ++ " rpm", ""]

/-- Decoupling section of `format_workout_details` (418-425), included iff
cardiac drift or power fade is non-`None`. -/
def decouplingLines (workout : Record) : Except String (List String) :=
  if isNone (pyGet workout "cardiac_drift") && isNone (pyGet workout "power_fade") then
    Except.ok []
  else do
    let cd ← guardSub workout "cardiac_drift" _format_percentage
      fun s => ["  Cardiac Drift: " ++ s]
    let pf ← guardSub workout "power_fade" _format_percentage
      fun s => ["  Power Fade: " ++ s]
    Except.ok ("Decoupling:" :: cd ++ pf ++ [""])

/-- Energy section of `format_workout_details` (427-433). -/
def workoutEnergyLines (workout : Record) : List String :=
  ["Energy:",
   "  Calories: " ++ _get_value workout "calories",
   "  Work (Joules): " ++ _get_value workout "work_joules",
   "  Carb Intake: " ++ _get_value workout "carbohydrate_intake" ++ " g",
   "  Carb Used: " ++ _get_value workout "carbohydrate_used" ++ " g", ""]

/-- Subjective section of `format_workout_details` (435-442), included iff
`feel` or `perceived_exertion` is truthy. -/
def subjectiveLines (workout : Record) : Except String (List String) :=
  if truthy (pyGet workout "feel") || truthy (pyGet workout "perceived_exertion") then do
    let f ← truthySub workout "feel" fun v => ["  Feel: " ++ pyStr v]
    let rpe ← truthySub workout "perceived_exertion" fun v => ["  RPE: " ++ pyStr v ++ "/10"]
    Except.ok ("Subjective:" :: f ++ rpe ++ [""])
  else Except.ok []

/-- One min/avg/max sensor triple of the CORE-sensor section of
`format_workout_details` (493-508), included iff at least one of the three
values is non-`None`; missing members render as "N/A".  (The `Â°C` unit
literal reproduces the module's own text.) -/
def coreStatLines (workout : Record) (minK avgK maxK label : String) :
    Except String (List String) := do
  let min_val := pyGet workout minK
  let avg_val := pyGet workout avgK
  let max_val := pyGet workout maxK
  if isNone min_val && isNone avg_val && isNone max_val then Except.ok []
  else do
    let min_s ← fixedOrNA min_val
    let avg_s ← fixedOrNA avg_val
    let max_s ← fixedOrNA max_val
    let unit := if strContains minK "strain" then " Heat Strain Index" else " Â°C"
    Except.ok ["  " ++ label ++ ": " ++ min_s ++ " / " ++ avg_s ++ " / " ++ max_s ++
      unit ++ " (min/avg/max)"]

/-- Notes block of `format_workout_details` (515-518). -/
def notesLines (workout : Record) : Except String (List String) := do
  let n ← truthySub workout "notes" fun v => ["Notes: " ++ pyStr v, ""]
  Except.ok n

/-- Source block of `format_workout_details` (520-528). -/
def sourceLines (workout : Record) : Except String (List String) := do
  let dev ← truthySub workout "device_name" fun v => ["  Device: " ++ pyStr v]
  let tz ← truthySub workout "time_zone" fun v => ["  Time Zone: " ++ pyStr v]
  Except.ok (["Source:", "  Source: " ++ _get_value workout "source"] ++ dev ++ tz ++
    ["  Created: " ++ _format_datetime (pyGet workout "created_at"),
     "  Updated: " ++ _format_datetime (pyGet workout "updated_at")])

/-- The `for lap in laps` loop of `format_workout_details` (535-537): each
dict lap is rendered with `format_workout_lap`, non-dict entries are
skipped. -/
def lapsBlock : List PyVal → Except String (List String)
  | [] => Except.ok []
  | v :: rest =>
    match v with
    | .dict lapRec => do
      let s ← format_workout_lap lapRec
      let tail ← lapsBlock rest
      Except.ok (s :: tail)
    | _ => lapsBlock rest

/-- Laps block of `format_workout_details` (530-537), included iff `laps`
is a truthy list. -/
def workoutLapsLines (workout : Record) : Except String (List String) :=
  match pyGetD workout "laps" (PyVal.list []) with
  | .list l =>
    if l.isEmpty then Except.ok []
    else do
      let body ← lapsBlock l
      Except.ok ("" :: ("Laps (" ++ Nat.repr l.length ++ "):") :: body)
  | _ => Except.ok []

/-- Translation of `format_workout_details` (lines 338-539), assembling the
sections above in the source's fixed order. -/
def format_workout_details (workout : Record) : Except String String := do
  let gen ← workoutGeneralLines workout
  let dur ← workoutDurationLines workout
  let dist ← workoutDistanceLines workout
  let dec ← decouplingLines workout
  let subj ← subjectiveLines workout
  let hrz ← _format_time_in_zone (pyGet workout "time_in_hr_zone")
    "Heart Rate Zones" HR_ZONE_NAMES
  let pz ← _format_time_in_zone (pyGet workout "time_in_power_zone")
    "Power Zones" POWER_ZONE_NAMES
  let tz ← _format_time_in_zone (pyGet workout "time_in_temperature_zone")
    "Temperature Zones" TEMPERATURE_ZONE_NAMES
  let ctz ← _format_time_in_zone (pyGet workout "time_in_core_temperature_zone")
    "Core Temperature Zones" CORE_TEMPERATURE_ZONE_NAMES
  let stz ← _format_time_in_zone (pyGet workout "time_in_skin_temperature_zone")
    "Skin Temperature Zones" SKIN_TEMPERATURE_ZONE_NAMES
  let hsz ← _format_time_in_zone (pyGet workout "time_in_heat_strain_zone")
    "Heat Strain Zones" HEAT_STRAIN_ZONE_NAMES
  let hrzB := if hrz.isEmpty then ([] : List String) else hrz ++ [""]
  let pzB := if pz.isEmpty then ([] : List String) else pz ++ [""]
  let tzB := if tz.isEmpty then ([] : List String) else tz ++ [""]
  let ctzB := if ctz.isEmpty then ([] : List String) else ctz ++ [""]
  let stzB := if stz.isEmpty then ([] : List String) else stz ++ [""]
  let hszB := if hsz.isEmpty then ([] : List String) else hsz ++ [""]
  let c1 ← coreStatLines workout "min_core_temperature" "avg_core_temperature"
    "max_core_temperature" "Core Temp"
  let c2 ← coreStatLines workout "min_skin_temperature" "avg_skin_temperature"
    "max_skin_temperature" "Skin Temp"
  let c3 ← coreStatLines workout "min_heat_strain_index" "avg_heat_strain_index"
    "max_heat_strain_index" "Heat Strain"
  let core_stats := c1 ++ c2 ++ c3
  let coreB : List String :=
    if core_stats.isEmpty then [] else "CORE Sensor:" :: core_stats ++ [""]
  let notes ← notesLines workout
  let src ← sourceLines workout
  let laps ← workoutLapsLines workout
  Except.ok (String.intercalate "\n"
    (["Workout Details:", ""] ++ gen ++ dur ++ dist ++ workoutSpeedLines workout ++
     workoutPowerLines workout ++ pdcLines (pyGet workout "power_duration_curve") ++
     workoutHeartRateLines workout ++ workoutTrainingLines workout ++ dec ++
     workoutEnergyLines workout ++ subj ++ hrzB ++ pzB ++ tzB ++ ctzB ++ stzB ++ hszB ++
     coreB ++ notes ++ src ++ laps))

/-- Date line of `format_wellness_entry` (lines 559-560): Python
`entry.get("date", entry.get("id", "N/A"))` falls back to the id (or
"N/A") only when the respective key is absent — a stored `None` under
"date" is rendered as `None`, with no fallback. -/
def wellnessDateLine (entry : Record) : String :=
  "  Date: " ++ pyStr (pyGetD entry "date" (pyGetD entry "id" (PyVal.str "N/A")))

/-- HRV-score line of `format_wellness_entry` (lines 584-586): emitted only
when `_calculate_hrv_score` produces a score. -/
noncomputable def wellnessHrvLine (entry : Record) : Except String (List String) := do
  let hrv ← _calculate_hrv_score (pyGet entry "hrv_rmssd")
  match hrv with
  | Option.some score => Except.ok ["  HRV Score: " ++ Int.repr score]
  | Option.none => Except.ok []

/-- Baseline HRV-score line of `format_wellness_entry` (lines 599-601). -/
noncomputable def wellnessBaselineHrvLine (entry : Record) :
    Except String (List String) := do
  let hrv ← _calculate_hrv_score (pyGet entry "hrv_rmssd_baseline")
  match hrv with
  | Option.some score => Except.ok ["  HRV Score Baseline: " ++ Int.repr score]
  | Option.none => Except.ok []

/-- Translation of `format_wellness_entry` (lines 547-616). -/
noncomputable def format_wellness_entry (entry : Record) : Except String String := do
  let bm1 ← guardSub entry "weight_kg" (pyFormatFixed 1) fun s => ["  Weight: " ++ s ++ " kg"]
  let bm2 ← guardSub entry "body_fat_percentage" (pyFormatFixed 1)
    fun s => ["  Body Fat: " ++ s ++ "%"]
  let bm3 ← guardSub entry "hydration_kg" (pyFormatFixed 1)
    fun s => ["  Hydration: " ++ s ++ " kg"]
  let body_metrics := bm1 ++ bm2 ++ bm3
  let bodyB : List String :=
    if body_metrics.isEmpty then [] else "Body Metrics:" :: body_metrics ++ [""]
  let r1 ← guardSub entry "sleep_hours" (pyFormatFixed 1) fun s => ["  Sleep: " ++ s ++ " hours"]
  let r2 ← guardSubPlain entry "resting_hr" fun v => ["  Resting HR: " ++ pyStr v ++ " bpm"]
  let r3 ← wellnessHrvLine entry
  let r4 ← guardSubPlain entry "readiness_score" fun v => ["  Readiness Score: " ++ pyStr v]
  let r5 ← guardSub entry "vo2max" (pyFormatFixed 1)
    fun s => ["  VO2max: " ++ s ++ " ml/kg/min"]
  let recovery_metrics := r1 ++ r2 ++ r3 ++ r4 ++ r5
  let recoveryB : List String :=
    if recovery_metrics.isEmpty then []
    else "Recovery Metrics:" :: recovery_metrics ++ [""]
  let b1 ← wellnessBaselineHrvLine entry
  let b2 ← guardSub entry "resting_hr_baseline" (pyFormatFixed 1)
    fun s => ["  Resting HR Baseline: " ++ s ++ " bpm"]
  let b3 ← guardSub entry "sleep_baseline" (pyFormatFixed 1)
    fun s => ["  Sleep Baseline: " ++ s ++ " hours"]
  let b4 ← guardSub entry "hydration_baseline" (pyFormatFixed 1)
    fun s => ["  Hydration Baseline: " ++ s ++ "%"]
  let b5 ← guardSub entry "vo2max_baseline" (pyFormatFixed 1)
    fun s => ["  VO2max Baseline: " ++ s ++ " ml/kg/min"]
  let baselines := b1 ++ b2 ++ b3 ++ b4 ++ b5
  let baseB : List String :=
    if baselines.isEmpty then [] else "7-Day Baselines:" :: baselines ++ [""]
  Except.ok (String.intercalate "\n"
    (["Wellness Entry:", wellnessDateLine entry,
      "  ID: " ++ pyStr (pyGetD entry "id" (PyVal.str "N/A")), ""] ++
     bodyB ++ recoveryB ++ baseB))

/-- Description line of `format_event_summary` (lines 647-653): a present,
truthy description longer than 100 characters is truncated to its first 100
characters plus "..."; shorter ones are shown in full.  `len()`/slicing on
a non-string raises. -/
def eventDescLine (event : Record) : Except String (List String) :=
  if truthy (pyGet event "description") then do
    let v ← pySub event "description"
    match v with
    | .str s =>
      Except.ok ["  Description: " ++
        (if s.length > 100 then String.mk (s.data.take 100) ++ "..." else s)]
    | _ => Except.error "TypeError: object has no len()"
  else Except.ok []

/-- Translation of `format_event_summary` (lines 624-655). -/
def format_event_summary (event : Record) : Except String String := do
  let event_date := _format_datetime (pyGet event "event_date")
  let base : List String :=
    ["Event: " ++ pyStr (pyGetD event "name" (PyVal.str "Unnamed")),
     "  ID: " ++ pyStr (pyGetD event "id" (PyVal.str "N/A")),
     "  Date: " ++ event_date,
     "  Type: " ++ pyStr (pyGetD event "event_type" (PyVal.str "Unknown")),
     "  Status: " ++ pyStr (pyGetD event "status" (PyVal.str "N/A"))]
  let loc ← truthySub event "location" fun v => ["  Location: " ++ pyStr v]
  let dist ← truthySub event "distance_km" fun v => ["  Distance: " ++ pyStr v ++ " km"]
  let desc ← eventDescLine event
  Except.ok (String.intercalate "\n" (base ++ loc ++ dist ++ desc))

/-- Course-details parts of `format_event_details` (lines 684-690). -/
def eventCourseLines (event : Record) : Except String (List String) := do
  let c1 ← truthySub event "distance_km" fun v => ["  Distance: " ++ pyStr v ++ " km"]
  let c2 ← truthySub event "elevation_gain_m" fun v => ["  Elevation Gain: " ++ pyStr v ++ " m"]
  let c3 ← truthySub event "duration_minutes" fun v => ["  Duration: " ++ pyStr v ++ " min"]
  Except.ok (c1 ++ c2 ++ c3)

/-- Targets-and-estimates parts of `format_event_details` (lines 697-708). -/
def eventTargetLines (event : Record) : Except String (List String) := do
  let t1 ← truthySub event "target_tss" fun v => ["  Target TSS: " ++ pyStr v]
  let t2 ← truthySubFmt event "target_intensity_factor" (pyFormatFixed 2)
    fun s => ["  Target IF: " ++ s]
  let t3 ← truthySub event "target_power_watts" fun v => ["  Target Power: " ++ pyStr v ++ " W"]
  let t4 ← truthySub event "estimated_calories" fun v => ["  Est. Calories: " ++ pyStr v]
  let t5 ← truthySub event "estimated_carbs" fun v => ["  Est. Carbs: " ++ pyStr v ++ " g"]
  Except.ok (t1 ++ t2 ++ t3 ++ t4 ++ t5)

/-- Settings parts of `format_event_details` (lines 716-722): each boolean
is included iff it is non-`None` (so an explicit `False` is still shown),
rendered "Yes"/"No" by truthiness of the stored value. -/
def eventSettingsLines (event : Record) : Except String (List String) := do
  let s1 ← guardSubPlain event "auto_calculate_intensity"
    fun v => ["  Auto Calculate Intensity: " ++ (if truthy v then "Yes" else "No")]
  let s2 ← guardSubPlain event "include_drafting"
    fun v => ["  Include Drafting: " ++ (if truthy v then "Yes" else "No")]
  Except.ok (s1 ++ s2)

/-- Links parts of `format_event_details` (lines 730-736). -/
def eventLinkLines (event : Record) : Except String (List String) := do
  let l1 ← truthySub event "event_website" fun v => ["  Website: " ++ pyStr v]
  let l2 ← truthySub event "registration_url" fun v => ["  Registration: " ++ pyStr v]
  let l3 ← truthySub event "results_url" fun v => ["  Results: " ++ pyStr v]
  Except.ok (l1 ++ l2 ++ l3)

/-- Translation of `format_event_details` (lines 658-755). -/
def format_event_details (event : Record) : Except String String := do
  let loc ← truthySub event "location" fun v => ["  Location: " ++ pyStr v]
  let desc ← truthySub event "description" fun v => ["  Description: " ++ pyStr v]
  let gen : List String :=
    ["General Information:",
     "  Name: " ++ pyStr (pyGetD event "name" (PyVal.str "Unnamed")),
     "  ID: " ++ pyStr (pyGetD event "id" (PyVal.str "N/A")),
     "  Date: " ++ _format_datetime (pyGet event "event_date"),
     "  Type: " ++ pyStr (pyGetD event "event_type" (PyVal.str "Unknown")),
     "  Category: " ++ _get_value event "category",
     "  Status: " ++ pyStr (pyGetD event "status" (PyVal.str "N/A"))] ++
    loc ++ desc ++ [""]
  let course ← eventCourseLines event
  let courseB : List String :=
    if course.isEmpty then [] else "Course Details:" :: course ++ [""]
  let targets ← eventTargetLines event
  let targetsB : List String :=
    if targets.isEmpty then [] else "Targets & Estimates:" :: targets ++ [""]
  let settings ← eventSettingsLines event
  let settingsB : List String :=
    if settings.isEmpty then [] else "Settings:" :: settings ++ [""]
  let links ← eventLinkLines event
  let linksB : List String :=
    if links.isEmpty then [] else "Links:" :: links ++ [""]
  let notes ← truthySub event "notes" fun v => ["Notes: " ++ pyStr v, ""]
  let wid ← truthySub event "workout_id" fun v => ["  Linked Workout ID: " ++ pyStr v]
  Except.ok (String.intercalate "\n"
    (["Event Details:", ""] ++ gen ++ courseB ++ targetsB ++ settingsB ++ linksB ++
     notes ++ ["Metadata:"] ++ wid ++
     ["  Created: " ++ _format_datetime (pyGet event "created_at"),
      "  Updated: " ++ _format_datetime (pyGet event "updated_at")]))

/-- A field value that is `None` or numeric — the shape the module's
guarded numeric formatting requires in order not to raise. -/
def numOrNoneB (v : PyVal) : Bool :=
  isNone v || v.toNum.isSome

/-- A field value that is `None` or a string. -/
def strOrNoneB : PyVal → Bool
  | .none => true
  | .str _ => true
  | _ => false

/-- A time-in-zone field: when it is a dict, all its values are `None` or
numeric (other shapes are skipped by `_format_time_in_zone`). -/
def zoneDictOk : PyVal → Bool
  | .dict entries => entries.all fun p => numOrNoneB p.2
  | _ => true

/-- Well-formedness of a lap record: each documented numeric field is
absent, `None`, or numeric.  (All other lap fields are rendered by plain
interpolation, which is total.) -/
def wfLap (lap : Record) : Bool :=
  numOrNoneB (pyGet lap "elapsed_time") && numOrNoneB (pyGet lap "moving_time") &&
  numOrNoneB (pyGet lap "distance") && numOrNoneB (pyGet lap "total_elevation_gain") &&
  numOrNoneB (pyGet lap "avg_speed") && numOrNoneB (pyGet lap "max_speed") &&
  numOrNoneB (pyGet lap "watts_per_kg") && numOrNoneB (pyGet lap "intensity_factor") &&
  numOrNoneB (pyGet lap "variability_index") &&
  numOrNoneB (pyGet lap "training_stress_score") &&
  numOrNoneB (pyGet lap "efficiency_factor") && numOrNoneB (pyGet lap "power_hr_ratio") &&
  numOrNoneB (pyGet lap "vam") && numOrNoneB (pyGet lap "work_joules")

/-- Well-formedness of the `laps` field: when it is a list, each dict
element is a well-formed lap (non-dict elements are skipped). -/
def lapsOk : PyVal → Bool
  | .list items =>
    items.all fun x =>
      match x with
      | .dict lapRec => wfLap lapRec
      | _ => true
  | _ => true

/-- Well-formedness of a workout record: the documented numeric fields are
absent, `None`, or numeric; zone dicts have numeric-or-`None` values; laps
are well-formed laps. -/
def wfWorkout (w : Record) : Bool :=
  numOrNoneB (pyGet w "duration_total_seconds") &&
  numOrNoneB (pyGet w "duration_active_seconds") &&
  numOrNoneB (pyGet w "duration_paused_seconds") &&
  numOrNoneB (pyGet w "distance_meters") &&
  numOrNoneB (pyGet w "intensity_factor") &&
  numOrNoneB (pyGet w "cardiac_drift") &&
  numOrNoneB (pyGet w "power_fade") &&
  numOrNoneB (pyGet w "min_core_temperature") &&
  numOrNoneB (pyGet w "avg_core_temperature") &&
  numOrNoneB (pyGet w "max_core_temperature") &&
  numOrNoneB (pyGet w "min_skin_temperature") &&
  numOrNoneB (pyGet w "avg_skin_temperature") &&
  numOrNoneB (pyGet w "max_skin_temperature") &&
  numOrNoneB (pyGet w "min_heat_strain_index") &&
  numOrNoneB (pyGet w "avg_heat_strain_index") &&
  numOrNoneB (pyGet w "max_heat_strain_index") &&
  zoneDictOk (pyGet w "time_in_hr_zone") &&
  zoneDictOk (pyGet w "time_in_power_zone") &&
  zoneDictOk (pyGet w "time_in_temperature_zone") &&
  zoneDictOk (pyGet w "time_in_core_temperature_zone") &&
  zoneDictOk (pyGet w "time_in_skin_temperature_zone") &&
  zoneDictOk (pyGet w "time_in_heat_strain_zone") &&
  lapsOk (pyGetD w "laps" (PyVal.list []))

/-- Well-formedness of a wellness record. -/
def wfWellness (e : Record) : Bool :=
  numOrNoneB (pyGet e "weight_kg") && numOrNoneB (pyGet e "body_fat_percentage") &&
  numOrNoneB (pyGet e "hydration_kg") && numOrNoneB (pyGet e "sleep_hours") &&
  numOrNoneB (pyGet e "vo2max") && numOrNoneB (pyGet e "hrv_rmssd") &&
  numOrNoneB (pyGet e "hrv_rmssd_baseline") &&
  numOrNoneB (pyGet e "resting_hr_baseline") && numOrNoneB (pyGet e "sleep_baseline") &&
  numOrNoneB (pyGet e "hydration_baseline") && numOrNoneB (pyGet e "vo2max_baseline")

/-- Well-formedness of an event record. -/
def wfEvent (e : Record) : Bool :=
  strOrNoneB (pyGet e "description") && numOrNoneB (pyGet e "target_intensity_factor")

theorem ok_bind {ε α β : Type} (a : α) (f : α → Except ε β) :
    (Except.ok a >>= f : Except ε β) = f a := rfl

theorem bind_ok_trans {ε α β : Type} {x : Except ε α} {f : α → Except ε β}
    (hx : ∃ a, x = Except.ok a) (hf : ∀ a, x = Except.ok a → ∃ b, f a = Except.ok b) :
    ∃ b, x >>= f = Except.ok b := by
  obtain ⟨a, ha⟩ := hx
  obtain ⟨b, hb⟩ := hf a ha
  exact ⟨b, by rw [ha, ok_bind, hb]⟩

theorem pySub_eq_ok {r : Record} {k : String} (h : isNone (pyGet r k) = false) :
    pySub r k = Except.ok (pyGet r k) := by
  unfold pySub pyGet
  unfold pyGet at h
  cases hf : assocFind r k with
  | none =>
    exfalso
    rw [hf] at h
    simp [isNone] at h
  | some v => simp

theorem truthy_not_none {v : PyVal} (h : truthy v = true) : isNone v = false := by
  cases v <;> simp_all [truthy, isNone]

theorem numOrNoneB_toNum {v : PyVal} (h1 : numOrNoneB v = true) (h2 : isNone v = false) :
    ∃ n d, v.toNum = Option.some (n, d) := by
  unfold numOrNoneB at h1
  rw [h2] at h1
  simp only [Bool.false_or] at h1
  cases hv : v.toNum with
  | none => rw [hv] at h1; simp [Option.isSome] at h1
  | some p => exact ⟨p.1, p.2, rfl⟩

theorem pyFormatFixed_ok {v : PyVal} (h1 : numOrNoneB v = true) (h2 : isNone v = false)
    (p : Nat) : ∃ s, pyFormatFixed p v = Except.ok s := by
  obtain ⟨n, d, hnd⟩ := numOrNoneB_toNum h1 h2
  exact ⟨formatFixed p n d, by unfold pyFormatFixed; rw [hnd]⟩

theorem duration_ok {v : PyVal} (h : numOrNoneB v = true) :
    ∃ s, _format_duration v = Except.ok s := by
  cases v with
  | none => exact ⟨"N/A", rfl⟩
  | int n => exact ⟨_, rfl⟩
  | float n d => exact ⟨_, rfl⟩
  | bool b => exact ⟨_, rfl⟩
  | str s => simp [numOrNoneB, isNone, PyVal.toNum] at h
  | dt d => simp [numOrNoneB, isNone, PyVal.toNum] at h
  | dict e => simp [numOrNoneB, isNone, PyVal.toNum] at h
  | list l => simp [numOrNoneB, isNone, PyVal.toNum] at h

theorem distance_ok {v : PyVal} (h : numOrNoneB v = true) :
    ∃ s, _format_distance v = Except.ok s := by
  cases v with
  | none => exact ⟨"N/A", rfl⟩
  | int n =>
    unfold _format_distance
    simp only [PyVal.toNum]
    split <;> exact ⟨_, rfl⟩
  | float n d =>
    unfold _format_distance
    simp only [PyVal.toNum]
    split <;> exact ⟨_, rfl⟩
  | bool b =>
    unfold _format_distance
    simp only [PyVal.toNum]
    split <;> exact ⟨_, rfl⟩
  | str s => simp [numOrNoneB, isNone, PyVal.toNum] at h
  | dt d => simp [numOrNoneB, isNone, PyVal.toNum] at h
  | dict e => simp [numOrNoneB, isNone, PyVal.toNum] at h
  | list l => simp [numOrNoneB, isNone, PyVal.toNum] at h

theorem percentage_ok {v : PyVal} (h : numOrNoneB v = true) :
    ∃ s, _format_percentage v = Except.ok s := by
  cases v with
  | none => exact ⟨"N/A", rfl⟩
  | int n => exact ⟨_, rfl⟩
  | float n d => exact ⟨_, rfl⟩
  | bool b => exact ⟨_, rfl⟩
  | str s => simp [numOrNoneB, isNone, PyVal.toNum] at h
  | dt d => simp [numOrNoneB, isNone, PyVal.toNum] at h
  | dict e => simp [numOrNoneB, isNone, PyVal.toNum] at h
  | list l => simp [numOrNoneB, isNone, PyVal.toNum] at h

theorem hrv_ok {v : PyVal} (h : numOrNoneB v = true) :
    ∃ o, _calculate_hrv_score v = Except.ok o := by
  cases v with
  | none => exact ⟨Option.none, rfl⟩
  | int n =>
    unfold _calculate_hrv_score
    simp only [PyVal.toNum]
    split <;> exact ⟨_, rfl⟩
  | float n d =>
    unfold _calculate_hrv_score
    simp only [PyVal.toNum]
    split <;> exact ⟨_, rfl⟩
  | bool b =>
    unfold _calculate_hrv_score
    simp only [PyVal.toNum]
    split <;> exact ⟨_, rfl⟩
  | str s => simp [numOrNoneB, isNone, PyVal.toNum] at h
  | dt d => simp [numOrNoneB, isNone, PyVal.toNum] at h
  | dict e => simp [numOrNoneB, isNone, PyVal.toNum] at h
  | list l => simp [numOrNoneB, isNone, PyVal.toNum] at h

theorem guardVal_ok {v : PyVal} {fmt : PyVal → Except String String}
    (g : String → List String) (hx : isNone v = false → ∃ s, fmt v = Except.ok s) :
    ∃ l, guardVal v fmt g = Except.ok l := by
  unfold guardVal
  by_cases h : isNone v = true
  · exact ⟨[], by rw [if_pos h]⟩
  · have hb : isNone v = false := by simpa using h
    obtain ⟨s, hs⟩ := hx hb
    exact ⟨g s, by rw [if_neg h, hs, ok_bind]⟩

theorem guardSub_ok {r : Record} {k : String} {fmt : PyVal → Except String String}
    (g : String → List String)
    (hx : isNone (pyGet r k) = false → ∃ s, fmt (pyGet r k) = Except.ok s) :
    ∃ l, guardSub r k fmt g = Except.ok l := by
  unfold guardSub
  by_cases h : isNone (pyGet r k) = true
  · exact ⟨[], by rw [if_pos h]⟩
  · have hb : isNone (pyGet r k) = false := by simpa using h
    obtain ⟨s, hs⟩ := hx hb
    exact ⟨g s, by rw [if_neg h, pySub_eq_ok hb, ok_bind, hs, ok_bind]⟩

theorem guardSubPlain_ok (r : Record) (k : String) (g : PyVal → List String) :
    ∃ l, guardSubPlain r k g = Except.ok l := by
  unfold guardSubPlain
  by_cases h : isNone (pyGet r k) = true
  · exact ⟨[], by rw [if_pos h]⟩
  · have hb : isNone (pyGet r k) = false := by simpa using h
    exact ⟨g (pyGet r k), by rw [if_neg h, pySub_eq_ok hb, ok_bind]⟩

theorem truthySub_ok (r : Record) (k : String) (g : PyVal → List String) :
    ∃ l, truthySub r k g = Except.ok l := by
  unfold truthySub
  by_cases h : truthy (pyGet r k) = true
  · exact ⟨g (pyGet r k),
      by rw [if_pos h, pySub_eq_ok (truthy_not_none h), ok_bind]⟩
  · exact ⟨[], by rw [if_neg h]⟩

theorem truthySubFmt_ok {r : Record} {k : String} {fmt : PyVal → Except String String}
    (g : String → List String)
    (hx : truthy (pyGet r k) = true → ∃ s, fmt (pyGet r k) = Except.ok s) :
    ∃ l, truthySubFmt r k fmt g = Except.ok l := by
  unfold truthySubFmt
  by_cases h : truthy (pyGet r k) = true
  · obtain ⟨s, hs⟩ := hx h
    exact ⟨g s, by rw [if_pos h, pySub_eq_ok (truthy_not_none h), ok_bind, hs, ok_bind]⟩
  · exact ⟨[], by rw [if_neg h]⟩

theorem fixedOrNA_ok {v : PyVal} (h : numOrNoneB v = true) :
    ∃ s, fixedOrNA v = Except.ok s := by
  unfold fixedOrNA
  by_cases hn : isNone v = true
  · exact ⟨"N/A", by rw [if_pos hn]⟩
  · have hb : isNone v = false := by simpa using hn
    obtain ⟨s, hs⟩ := pyFormatFixed_ok h hb 1
    exact ⟨s, by rw [if_neg hn, hs]⟩

theorem divFix_ok {v : PyVal} (h1 : numOrNoneB v = true) (h2 : isNone v = false) :
    ∃ s, (pyDivByNat v 1000 >>= fun q => pyFormatFixed 1 q) = Except.ok s := by
  obtain ⟨n, d, hnd⟩ := numOrNoneB_toNum h1 h2
  refine ⟨formatFixed 1 n (d * 1000), ?_⟩
  unfold pyDivByNat
  rw [hnd, ok_bind]
  rfl

theorem zoneLines_ok (names : List (String × String)) :
    ∀ entries : List (String × PyVal),
      (entries.all fun p => numOrNoneB p.2) = true →
      ∃ l, zoneLines names entries = Except.ok l := by
  intro entries h
  induction entries with
  | nil => exact ⟨[], rfl⟩
  | cons p rest ih =>
    obtain ⟨zk, sec⟩ := p
    simp only [List.all_cons, Bool.and_eq_true] at h
    obtain ⟨s, hs⟩ := duration_ok h.1
    obtain ⟨l, hl⟩ := ih h.2
    simp only [zoneLines]
    rw [hs, ok_bind, hl, ok_bind]
    exact ⟨_, rfl⟩

theorem time_in_zone_ok {v : PyVal} (label : String) (names : List (String × String))
    (h : zoneDictOk v = true) : ∃ l, _format_time_in_zone v label names = Except.ok l := by
  cases v with
  | dict entries =>
    simp only [_format_time_in_zone]
    by_cases he : entries.isEmpty
    · exact ⟨[], by simp [he]⟩
    · obtain ⟨l, hl⟩ := zoneLines_ok names entries (by simpa [zoneDictOk] using h)
      rw [if_neg he, hl, ok_bind]
      exact ⟨_, rfl⟩
  | none => exact ⟨[], rfl⟩
  | bool b => exact ⟨[], rfl⟩
  | int n => exact ⟨[], rfl⟩
  | float n d => exact ⟨[], rfl⟩
  | str s => exact ⟨[], rfl⟩
  | dt d => exact ⟨[], rfl⟩
  | list l => exact ⟨[], rfl⟩

theorem format_workout_lap_ok {lap : Record} (h : wfLap lap = true) :
    ∃ s, format_workout_lap lap = Except.ok s := by
  unfold wfLap at h
  simp only [Bool.and_eq_true] at h
  obtain ⟨⟨⟨⟨⟨⟨⟨⟨⟨⟨⟨⟨⟨h1, h2⟩, h3⟩, h4⟩, h5⟩, h6⟩, h7⟩, h8⟩, h9⟩, h10⟩, h11⟩,
    h12⟩, h13⟩, h14⟩ := h
  unfold format_workout_lap
  refine bind_ok_trans (guardVal_ok _ fun hb => duration_ok h1) fun l1 _ => ?_
  refine bind_ok_trans (guardVal_ok _ fun hb => duration_ok h2) fun l2 _ => ?_
  refine bind_ok_trans (guardVal_ok _ fun hb => distance_ok h3) fun l3 _ => ?_
  refine bind_ok_trans (guardVal_ok _ fun hb => pyFormatFixed_ok h4 hb 0) fun l4 _ => ?_
  refine bind_ok_trans (guardVal_ok _ fun hb => pyFormatFixed_ok h5 hb 1) fun l5 _ => ?_
  refine bind_ok_trans (guardVal_ok _ fun hb => pyFormatFixed_ok h6 hb 1) fun l6 _ => ?_
  refine bind_ok_trans (guardSubPlain_ok _ _ _) fun l7 _ => ?_
  refine bind_ok_trans (guardSubPlain_ok _ _ _) fun l8 _ => ?_
  refine bind_ok_trans (guardSubPlain_ok _ _ _) fun l9 _ => ?_
  refine bind_ok_trans (guardSub_ok _ fun hb => pyFormatFixed_ok h7 hb 2) fun l10 _ => ?_
  refine bind_ok_trans (guardSubPlain_ok _ _ _) fun l11 _ => ?_
  refine bind_ok_trans (guardSubPlain_ok _ _ _) fun l12 _ => ?_
  refine bind_ok_trans (guardSubPlain_ok _ _ _) fun l13 _ => ?_
  refine bind_ok_trans (guardSub_ok _ fun hb => pyFormatFixed_ok h8 hb 2) fun l14 _ => ?_
  refine bind_ok_trans (guardSub_ok _ fun hb => pyFormatFixed_ok h9 hb 2) fun l15 _ => ?_
  refine bind_ok_trans (guardSub_ok _ fun hb => pyFormatFixed_ok h10 hb 0) fun l16 _ => ?_
  refine bind_ok_trans (guardSub_ok _ fun hb => pyFormatFixed_ok h11 hb 2) fun l17 _ => ?_
  refine bind_ok_trans (guardSub_ok _ fun hb => pyFormatFixed_ok h12 hb 2) fun l18 _ => ?_
  refine bind_ok_trans (guardSub_ok _ fun hb => pyFormatFixed_ok h13 hb 0) fun l19 _ => ?_
  refine bind_ok_trans (guardSub_ok _ fun hb => divFix_ok h14 hb) fun l20 _ => ?_
  refine bind_ok_trans (guardSubPlain_ok _ _ _) fun l21 _ => ?_
  exact ⟨_, rfl⟩

theorem workoutGeneralLines_ok (workout : Record) :
    ∃ l, workoutGeneralLines workout = Except.ok l := by
  unfold workoutGeneralLines
  refine bind_ok_trans (truthySub_ok _ _ _) fun d _ => ?_
  exact ⟨_, rfl⟩

theorem workoutDurationLines_ok {workout : Record}
    (h1 : numOrNoneB (pyGet workout "duration_total_seconds") = true)
    (h2 : numOrNoneB (pyGet workout "duration_active_seconds") = true)
    (h3 : numOrNoneB (pyGet workout "duration_paused_seconds") = true) :
    ∃ l, workoutDurationLines workout = Except.ok l := by
  unfold workoutDurationLines
  refine bind_ok_trans (duration_ok h1) fun a _ => ?_
  refine bind_ok_trans (duration_ok h2) fun b _ => ?_
  refine bind_ok_trans (duration_ok h3) fun c _ => ?_
  exact ⟨_, rfl⟩

theorem workoutDistanceLines_ok {workout : Record}
    (h : numOrNoneB (pyGet workout "distance_meters") = true) :
    ∃ l, workoutDistanceLines workout = Except.ok l := by
  unfold workoutDistanceLines
  refine bind_ok_trans (distance_ok h) fun a _ => ?_
  exact ⟨_, rfl⟩

theorem decouplingLines_ok {workout : Record}
    (hcd : numOrNoneB (pyGet workout "cardiac_drift") = true)
    (hpf : numOrNoneB (pyGet workout "power_fade") = true) :
    ∃ l, decouplingLines workout = Except.ok l := by
  unfold decouplingLines
  by_cases h : (isNone (pyGet workout "cardiac_drift") &&
      isNone (pyGet workout "power_fade")) = true
  · exact ⟨[], by rw [if_pos h]⟩
  · rw [if_neg h]
    refine bind_ok_trans (guardSub_ok _ fun hb => percentage_ok hcd) fun cd _ => ?_
    refine bind_ok_trans (guardSub_ok _ fun hb => percentage_ok hpf) fun pf _ => ?_
    exact ⟨_, rfl⟩

theorem subjectiveLines_ok (workout : Record) :
    ∃ l, subjectiveLines workout = Except.ok l := by
  unfold subjectiveLines
  by_cases h : (truthy (pyGet workout "feel") ||
      truthy (pyGet workout "perceived_exertion")) = true
  · rw [if_pos h]
    refine bind_ok_trans (truthySub_ok _ _ _) fun f _ => ?_
    refine bind_ok_trans (truthySub_ok _ _ _) fun rp _ => ?_
    exact ⟨_, rfl⟩
  · exact ⟨[], by rw [if_neg h]⟩

theorem coreStatLines_ok {workout : Record} {minK avgK maxK : String} (label : String)
    (hmin : numOrNoneB (pyGet workout minK) = true)
    (havg : numOrNoneB (pyGet workout avgK) = true)
    (hmax : numOrNoneB (pyGet workout maxK) = true) :
    ∃ l, coreStatLines workout minK avgK maxK label = Except.ok l := by
  simp only [coreStatLines]
  by_cases h : (isNone (pyGet workout minK) && isNone (pyGet workout avgK) &&
      isNone (pyGet workout maxK)) = true
  · exact ⟨[], by rw [if_pos h]⟩
  · rw [if_neg h]
    refine bind_ok_trans (fixedOrNA_ok hmin) fun a _ => ?_
    refine bind_ok_trans (fixedOrNA_ok havg) fun b _ => ?_
    refine bind_ok_trans (fixedOrNA_ok hmax) fun c _ => ?_
    exact ⟨_, rfl⟩

theorem notesLines_ok (workout : Record) : ∃ l, notesLines workout = Except.ok l := by
  unfold notesLines
  refine bind_ok_trans (truthySub_ok _ _ _) fun n _ => ?_
  exact ⟨_, rfl⟩

theorem sourceLines_ok (workout : Record) : ∃ l, sourceLines workout = Except.ok l := by
  unfold sourceLines
  refine bind_ok_trans (truthySub_ok _ _ _) fun dev _ => ?_
  refine bind_ok_trans (truthySub_ok _ _ _) fun tz _ => ?_
  exact ⟨_, rfl⟩

theorem lapsBlock_ok : ∀ {items : List PyVal},
    (items.all fun x =>
      match x with
      | PyVal.dict lapRec => wfLap lapRec
      | _ => true) = true →
    ∃ l, lapsBlock items = Except.ok l := by
  intro items h
  induction items with
  | nil => exact ⟨[], rfl⟩
  | cons v rest ih =>
    simp only [List.all_cons, Bool.and_eq_true] at h
    obtain ⟨hv, hrest⟩ := h
    cases v with
    | dict lapRec =>
      obtain ⟨s, hs⟩ := format_workout_lap_ok (by simpa using hv)
      obtain ⟨l, hl⟩ := ih hrest
      simp only [lapsBlock]
      rw [hs, ok_bind, hl, ok_bind]
      exact ⟨_, rfl⟩
    | none => simp only [lapsBlock]; exact ih hrest
    | bool b => simp only [lapsBlock]; exact ih hrest
    | int n => simp only [lapsBlock]; exact ih hrest
    | float n d => simp only [lapsBlock]; exact ih hrest
    | str s => simp only [lapsBlock]; exact ih hrest
    | dt d => simp only [lapsBlock]; exact ih hrest
    | list l => simp only [lapsBlock]; exact ih hrest

theorem workoutLapsLines_ok {workout : Record}
    (h : lapsOk (pyGetD workout "laps" (PyVal.list [])) = true) :
    ∃ l, workoutLapsLines workout = Except.ok l := by
  unfold workoutLapsLines
  cases hv : pyGetD workout "laps" (PyVal.list []) with
  | list items =>
    rw [hv] at h
    simp only []
    by_cases he : items.isEmpty
    · exact ⟨[], by rw [if_pos he]⟩
    · rw [if_neg he]
      obtain ⟨l, hl⟩ := lapsBlock_ok (by simpa [lapsOk] using h)
      rw [hl, ok_bind]
      exact ⟨_, rfl⟩
  | none => exact ⟨[], rfl⟩
  | bool b => exact ⟨[], rfl⟩
  | int n => exact ⟨[], rfl⟩
  | float n d => exact ⟨[], rfl⟩
  | str s => exact ⟨[], rfl⟩
  | dt d => exact ⟨[], rfl⟩
  | dict e => exact ⟨[], rfl⟩

theorem format_workout_details_ok {workout : Record} (h : wfWorkout workout = true) :
    ∃ s, format_workout_details workout = Except.ok s := by
  unfold wfWorkout at h
  simp only [Bool.and_eq_true] at h
  obtain ⟨⟨⟨⟨⟨⟨⟨⟨⟨⟨⟨⟨⟨⟨⟨⟨⟨⟨⟨⟨⟨⟨h1, h2⟩, h3⟩, h4⟩, h5⟩, h6⟩, h7⟩, h8⟩, h9⟩, h10⟩,
    h11⟩, h12⟩, h13⟩, h14⟩, h15⟩, h16⟩, h17⟩, h18⟩, h19⟩, h20⟩, h21⟩, h22⟩, h23⟩ := h
  unfold format_workout_details
  refine bind_ok_trans (workoutGeneralLines_ok _) fun gen _ => ?_
  refine bind_ok_trans (workoutDurationLines_ok h1 h2 h3) fun dur _ => ?_
  refine bind_ok_trans (workoutDistanceLines_ok h4) fun dist _ => ?_
  refine bind_ok_trans (decouplingLines_ok h6 h7) fun dec _ => ?_
  refine bind_ok_trans (subjectiveLines_ok _) fun subj _ => ?_
  refine bind_ok_trans (time_in_zone_ok _ _ h17) fun hrz _ => ?_
  refine bind_ok_trans (time_in_zone_ok _ _ h18) fun pz _ => ?_
  refine bind_ok_trans (time_in_zone_ok _ _ h19) fun tzn _ => ?_
  refine bind_ok_trans (time_in_zone_ok _ _ h20) fun ctz _ => ?_
  refine bind_ok_trans (time_in_zone_ok _ _ h21) fun stz _ => ?_
  refine bind_ok_trans (time_in_zone_ok _ _ h22) fun hsz _ => ?_
  refine bind_ok_trans (coreStatLines_ok _ h8 h9 h10) fun c1 _ => ?_
  refine bind_ok_trans (coreStatLines_ok _ h11 h12 h13) fun c2 _ => ?_
  refine bind_ok_trans (coreStatLines_ok _ h14 h15 h16) fun c3 _ => ?_
  refine bind_ok_trans (notesLines_ok _) fun notes _ => ?_
  refine bind_ok_trans (sourceLines_ok _) fun src _ => ?_
  refine bind_ok_trans (workoutLapsLines_ok h23) fun laps _ => ?_
  exact ⟨_, rfl⟩

theorem format_workout_summary_ok {workout : Record} (h : wfWorkout workout = true) :
    ∃ s, format_workout_summary workout = Except.ok s := by
  unfold wfWorkout at h
  simp only [Bool.and_eq_true] at h
  obtain ⟨⟨⟨⟨⟨⟨⟨⟨⟨⟨⟨⟨⟨⟨⟨⟨⟨⟨⟨⟨⟨⟨h1, h2⟩, h3⟩, h4⟩, h5⟩, h6⟩, h7⟩, h8⟩, h9⟩, h10⟩,
    h11⟩, h12⟩, h13⟩, h14⟩, h15⟩, h16⟩, h17⟩, h18⟩, h19⟩, h20⟩, h21⟩, h22⟩, h23⟩ := h
  unfold format_workout_summary
  refine bind_ok_trans (duration_ok h1) fun dur _ => ?_
  refine bind_ok_trans (distance_ok h4) fun dist _ => ?_
  refine bind_ok_trans (truthySub_ok _ _ _) fun np _ => ?_
  refine bind_ok_trans (truthySub_ok _ _ _) fun tss _ => ?_
  refine bind_ok_trans
    (truthySubFmt_ok _ fun ht => pyFormatFixed_ok h5 (truthy_not_none ht) 2)
    fun it _ => ?_
  exact ⟨_, rfl⟩

theorem wellnessHrvLine_ok {entry : Record}
    (h : numOrNoneB (pyGet entry "hrv_rmssd") = true) :
    ∃ l, wellnessHrvLine entry = Except.ok l := by
  unfold wellnessHrvLine
  refine bind_ok_trans (hrv_ok h) fun o _ => ?_
  cases o with
  | some sc => exact ⟨_, rfl⟩
  | none => exact ⟨[], rfl⟩

theorem wellnessBaselineHrvLine_ok {entry : Record}
    (h : numOrNoneB (pyGet entry "hrv_rmssd_baseline") = true) :
    ∃ l, wellnessBaselineHrvLine entry = Except.ok l := by
  unfold wellnessBaselineHrvLine
  refine bind_ok_trans (hrv_ok h) fun o _ => ?_
  cases o with
  | some sc => exact ⟨_, rfl⟩
  | none => exact ⟨[], rfl⟩

theorem format_wellness_entry_ok {entry : Record} (h : wfWellness entry = true) :
    ∃ s, format_wellness_entry entry = Except.ok s := by
  unfold wfWellness at h
  simp only [Bool.and_eq_true] at h
  obtain ⟨⟨⟨⟨⟨⟨⟨⟨⟨⟨h1, h2⟩, h3⟩, h4⟩, h5⟩, h6⟩, h7⟩, h8⟩, h9⟩, h10⟩, h11⟩ := h
  unfold format_wellness_entry
  refine bind_ok_trans (guardSub_ok _ fun hb => pyFormatFixed_ok h1 hb 1) fun a1 _ => ?_
  refine bind_ok_trans (guardSub_ok _ fun hb => pyFormatFixed_ok h2 hb 1) fun a2 _ => ?_
  refine bind_ok_trans (guardSub_ok _ fun hb => pyFormatFixed_ok h3 hb 1) fun a3 _ => ?_
  refine bind_ok_trans (guardSub_ok _ fun hb => pyFormatFixed_ok h4 hb 1) fun a4 _ => ?_
  refine bind_ok_trans (guardSubPlain_ok _ _ _) fun a5 _ => ?_
  refine bind_ok_trans (wellnessHrvLine_ok h6) fun a6 _ => ?_
  refine bind_ok_trans (guardSubPlain_ok _ _ _) fun a7 _ => ?_
  refine bind_ok_trans (guardSub_ok _ fun hb => pyFormatFixed_ok h5 hb 1) fun a8 _ => ?_
  refine bind_ok_trans (wellnessBaselineHrvLine_ok h7) fun a9 _ => ?_
  refine bind_ok_trans (guardSub_ok _ fun hb => pyFormatFixed_ok h8 hb 1) fun a10 _ => ?_
  refine bind_ok_trans (guardSub_ok _ fun hb => pyFormatFixed_ok h9 hb 1) fun a11 _ => ?_
  refine bind_ok_trans (guardSub_ok _ fun hb => pyFormatFixed_ok h10 hb 1) fun a12 _ => ?_
  refine bind_ok_trans (guardSub_ok _ fun hb => pyFormatFixed_ok h11 hb 1) fun a13 _ => ?_
  exact ⟨_, rfl⟩

theorem eventDescLine_ok {event : Record}
    (h : strOrNoneB (pyGet event "description") = true) :
    ∃ l, eventDescLine event = Except.ok l := by
  unfold eventDescLine
  by_cases ht : truthy (pyGet event "description") = true
  · rw [if_pos ht, pySub_eq_ok (truthy_not_none ht), ok_bind]
    cases hv : pyGet event "description" with
    | str s => exact ⟨_, rfl⟩
    | none => rw [hv] at ht; simp [truthy] at ht
    | bool b => rw [hv] at h; simp [strOrNoneB] at h
    | int n => rw [hv] at h; simp [strOrNoneB] at h
    | float n d => rw [hv] at h; simp [strOrNoneB] at h
    | dt d => rw [hv] at h; simp [strOrNoneB] at h
    | dict e => rw [hv] at h; simp [strOrNoneB] at h
    | list l => rw [hv] at h; simp [strOrNoneB] at h
  · exact ⟨[], by rw [if_neg ht]⟩

theorem format_event_summary_ok {event : Record} (h : wfEvent event = true) :
    ∃ s, format_event_summary event = Except.ok s := by
  unfold wfEvent at h
  simp only [Bool.and_eq_true] at h
  obtain ⟨hd, hif⟩ := h
  unfold format_event_summary
  refine bind_ok_trans (truthySub_ok _ _ _) fun loc _ => ?_
  refine bind_ok_trans (truthySub_ok _ _ _) fun dist _ => ?_
  refine bind_ok_trans (eventDescLine_ok hd) fun desc _ => ?_
  exact ⟨_, rfl⟩

theorem eventCourseLines_ok (event : Record) :
    ∃ l, eventCourseLines event = Except.ok l := by
  unfold eventCourseLines
  refine bind_ok_trans (truthySub_ok _ _ _) fun c1 _ => ?_
  refine bind_ok_trans (truthySub_ok _ _ _) fun c2 _ => ?_
  refine bind_ok_trans (truthySub_ok _ _ _) fun c3 _ => ?_
  exact ⟨_, rfl⟩

theorem eventTargetLines_ok {event : Record}
    (hif : numOrNoneB (pyGet event "target_intensity_factor") = true) :
    ∃ l, eventTargetLines event = Except.ok l := by
  unfold eventTargetLines
  refine bind_ok_trans (truthySub_ok _ _ _) fun t1 _ => ?_
  refine bind_ok_trans
    (truthySubFmt_ok _ fun ht => pyFormatFixed_ok hif (truthy_not_none ht) 2)
    fun t2 _ => ?_
  refine bind_ok_trans (truthySub_ok _ _ _) fun t3 _ => ?_
  refine bind_ok_trans (truthySub_ok _ _ _) fun t4 _ => ?_
  refine bind_ok_trans (truthySub_ok _ _ _) fun t5 _ => ?_
  exact ⟨_, rfl⟩

theorem eventSettingsLines_ok (event : Record) :
    ∃ l, eventSettingsLines event = Except.ok l := by
  unfold eventSettingsLines
  refine bind_ok_trans (guardSubPlain_ok _ _ _) fun s1 _ => ?_
  refine bind_ok_trans (guardSubPlain_ok _ _ _) fun s2 _ => ?_
  exact ⟨_, rfl⟩

theorem eventLinkLines_ok (event : Record) :
    ∃ l, eventLinkLines event = Except.ok l := by
  unfold eventLinkLines
  refine bind_ok_trans (truthySub_ok _ _ _) fun l1 _ => ?_
  refine bind_ok_trans (truthySub_ok _ _ _) fun l2 _ => ?_
  refine bind_ok_trans (truthySub_ok _ _ _) fun l3 _ => ?_
  exact ⟨_, rfl⟩

theorem format_event_details_ok {event : Record} (h : wfEvent event = true) :
    ∃ s, format_event_details event = Except.ok s := by
  unfold wfEvent at h
  simp only [Bool.and_eq_true] at h
  obtain ⟨hd, hif⟩ := h
  unfold format_event_details
  refine bind_ok_trans (truthySub_ok _ _ _) fun loc _ => ?_
  refine bind_ok_trans (truthySub_ok _ _ _) fun desc _ => ?_
  refine bind_ok_trans (eventCourseLines_ok _) fun course _ => ?_
  refine bind_ok_trans (eventTargetLines_ok hif) fun targets _ => ?_
  refine bind_ok_trans (eventSettingsLines_ok _) fun settings _ => ?_
  refine bind_ok_trans (eventLinkLines_ok _) fun links _ => ?_
  refine bind_ok_trans (truthySub_ok _ _ _) fun notes _ => ?_
  refine bind_ok_trans (truthySub_ok _ _ _) fun wid _ => ?_
  exact ⟨_, rfl⟩

theorem isOk_of_ex {ε α : Type} {x : Except ε α} (h : ∃ a, x = Except.ok a) :
    x.isOk = true := by
  obtain ⟨a, ha⟩ := h
  rw [ha]
  rfl

/-- Example workout record for evaluating the totality theorem: fields
present, explicitly `None`, and absent all occur; the lap list contains a
non-dict entry. -/
def exWorkout : Record :=
  [("name", PyVal.str "Morning Ride"),
   ("id", PyVal.none),
   ("workout_type", PyVal.str "cycling"),
   ("duration_total_seconds", PyVal.int 3725),
   ("distance_meters", PyVal.float 24861 2),
   ("intensity_factor", PyVal.float 17 20),
   ("power_normalized", PyVal.int 210),
   ("cardiac_drift", PyVal.float 7 2),
   ("time_in_hr_zone", PyVal.dict [("Z2", PyVal.int 1800), ("Z9", PyVal.float 241 2)]),
   ("laps", PyVal.list
     [PyVal.dict [("lap_index", PyVal.int 1), ("avg_power", PyVal.int 200),
       ("intensity_factor", PyVal.float 3 4)],
      PyVal.str "not-a-lap"])]

/-- Example lap record with present, `None` and absent fields. -/
def exLap : Record :=
  [("lap_index", PyVal.int 2), ("name", PyVal.str "Tempo"),
   ("elapsed_time", PyVal.float 601 2), ("avg_power", PyVal.int 250),
   ("max_power", PyVal.none), ("watts_per_kg", PyVal.float 37 10),
   ("work_joules", PyVal.int 540000)]

/-- Example wellness record; the RMSSD is negative, so no HRV score line. -/
def exWellness : Record :=
  [("date", PyVal.str "2024-03-05"), ("weight_kg", PyVal.float 707 10),
   ("resting_hr", PyVal.int 44), ("hrv_rmssd", PyVal.float (-5) 1)]

/-- Example event record with an explicit `False` boolean setting. -/
def exEvent : Record :=
  [("name", PyVal.str "Spring Classic"), ("description", PyVal.str "A hilly race"),
   ("distance_km", PyVal.int 120), ("auto_calculate_intensity", PyVal.bool false),
   ("target_intensity_factor", PyVal.float 17 20)]

/-- C1: on every record whose documented fields may each be absent or
explicitly null (and otherwise carry their documented type, as captured by
the well-formedness predicates), each public formatter returns a string and
never raises: every guarded subscript, format spec, comparison and division
in the translation is shown to succeed, so the result is `Except.ok`. -/
theorem C1_formatters_never_raise :
    (∀ w : Record, wfWorkout w = true → (format_workout_summary w).isOk = true) ∧
    (∀ w : Record, wfWorkout w = true → (format_workout_details w).isOk = true) ∧
    (∀ lap : Record, wfLap lap = true → (format_workout_lap lap).isOk = true) ∧
    (∀ e : Record, wfWellness e = true → (format_wellness_entry e).isOk = true) ∧
    (∀ e : Record, wfEvent e = true → (format_event_summary e).isOk = true) ∧
    (∀ e : Record, wfEvent e = true → (format_event_details e).isOk = true) :=
  ⟨fun _ h => isOk_of_ex (format_workout_summary_ok h),
   fun _ h => isOk_of_ex (format_workout_details_ok h),
   fun _ h => isOk_of_ex (format_workout_lap_ok h),
   fun _ h => isOk_of_ex (format_wellness_entry_ok h),
   fun _ h => isOk_of_ex (format_event_summary_ok h),
   fun _ h => isOk_of_ex (format_event_details_ok h)⟩

/-- Witness for C1 at the concrete example records. -/
theorem C1_formatters_never_raise_witness :
    (wfWorkout exWorkout = true ∧ wfLap exLap = true ∧ wfWellness exWellness = true ∧
      wfEvent exEvent = true) ∧
    (format_workout_summary exWorkout).isOk = true ∧
    (format_workout_details exWorkout).isOk = true ∧
    (format_workout_lap exLap).isOk = true ∧
    (format_wellness_entry exWellness).isOk = true ∧
    (format_event_summary exEvent).isOk = true ∧
    (format_event_details exEvent).isOk = true :=
  ⟨⟨by decide, by decide, by decide, by decide⟩,
   C1_formatters_never_raise.1 exWorkout (by decide),
   C1_formatters_never_raise.2.1 exWorkout (by decide),
   C1_formatters_never_raise.2.2.1 exLap (by decide),
   C1_formatters_never_raise.2.2.2.1 exWellness (by decide),
   C1_formatters_never_raise.2.2.2.2.1 exEvent (by decide),
   C1_formatters_never_raise.2.2.2.2.2 exEvent (by decide)⟩

/-- Duration rendering as the spec words it (§4.1): decompose the second
count into hours, minutes and seconds via integer (floor) division and
modulo, truncating fractional seconds (the two moduli are nonnegative, so
truncation and floor agree), then choose the `"{h}h {m}m {s}s"`,
`"{m}m {s}s"` or `"{s}s"` branch.  Stated over `ℚ`, to be compared with
the translation `_format_duration`. -/
def durationSpecString (q : ℚ) : String :=
  let hours : ℤ := ⌊q / 3600⌋
  let minutes : ℤ := ⌊(q - 3600 * (⌊q / 3600⌋ : ℚ)) / 60⌋
  let secs : ℤ := ⌊q - 60 * (⌊q / 60⌋ : ℚ)⌋
  if hours > 0 then
    Int.repr hours ++ "h " ++ Int.repr minutes ++ "m " ++ Int.repr secs ++ "s"
  else if minutes > 0 then
    Int.repr minutes ++ "m " ++ Int.repr secs ++ "s"
  else
    Int.repr secs ++ "s"

theorem floor_int_div_nat (m : ℤ) (k : ℕ) : ⌊(m : ℚ) / (k : ℚ)⌋ = m / (k : ℤ) := by
  have := Rat.floor_intCast_div_natCast m k
  simpa using this

theorem durString_eq_spec (n : ℤ) (d : ℕ) (hd : 0 < d) :
    durString n d = durationSpecString ((n : ℚ) / (d : ℚ)) := by
  have hdq : ((d : ℚ)) ≠ 0 := by
    exact_mod_cast hd.ne'
  have hH : ⌊((n : ℚ) / (d : ℚ)) / 3600⌋ = n / ((d : ℤ) * 3600) := by
    rw [div_div]
    have e : (d : ℚ) * 3600 = ((d * 3600 : ℕ) : ℚ) := by push_cast; ring
    rw [e, floor_int_div_nat]
    push_cast
    ring_nf
  have hQ : ⌊((n : ℚ) / (d : ℚ)) / 60⌋ = n / ((d : ℤ) * 60) := by
    rw [div_div]
    have e : (d : ℚ) * 60 = ((d * 60 : ℕ) : ℚ) := by push_cast; ring
    rw [e, floor_int_div_nat]
    push_cast
    ring_nf
  have hM : ⌊(((n : ℚ) / (d : ℚ)) - 3600 * ((n / ((d : ℤ) * 3600) : ℤ) : ℚ)) / 60⌋ =
      (n - n / ((d : ℤ) * 3600) * ((d : ℤ) * 3600)) / ((d : ℤ) * 60) := by
    have e : (((n : ℚ) / (d : ℚ)) - 3600 * ((n / ((d : ℤ) * 3600) : ℤ) : ℚ)) / 60 =
        ((n - n / ((d : ℤ) * 3600) * ((d : ℤ) * 3600) : ℤ) : ℚ) / ((d * 60 : ℕ) : ℚ) := by
      field_simp
      ring
    rw [e, floor_int_div_nat]
    push_cast
    ring_nf
  have hS : ⌊((n : ℚ) / (d : ℚ)) - 60 * ((n / ((d : ℤ) * 60) : ℤ) : ℚ)⌋ =
      (n - n / ((d : ℤ) * 60) * ((d : ℤ) * 60)) / (d : ℤ) := by
    have e : ((n : ℚ) / (d : ℚ)) - 60 * ((n / ((d : ℤ) * 60) : ℤ) : ℚ) =
        ((n - n / ((d : ℤ) * 60) * ((d : ℤ) * 60) : ℤ) : ℚ) / ((d : ℕ) : ℚ) := by
      field_simp
      ring
    rw [e, floor_int_div_nat]
  simp only [durString, durationSpecString, durParts]
  rw [hH, hQ, hM, hS]

/-- C2: `_format_duration` maps `None` to "N/A" and any numeric second
count (integer or fractional) to the spec's decomposition by floor
division and modulo with truncated fractional seconds, choosing the
`h`/`m`/`s` branch exactly as specified; in particular 0 → "0s",
125 → "2m 5s", 3725 → "1h 2m 5s", and the fractional 125.5 → "2m 5s"
(truncated, not rounded). -/
theorem C2_format_duration_correct :
    _format_duration PyVal.none = Except.ok "N/A" ∧
    (∀ n : ℤ, _format_duration (PyVal.int n) = Except.ok (durationSpecString (n : ℚ))) ∧
    (∀ n : ℤ, ∀ d : ℕ, 0 < d →
      _format_duration (PyVal.float n d) =
        Except.ok (durationSpecString ((n : ℚ) / (d : ℚ)))) ∧
    _format_duration (PyVal.int 0) = Except.ok "0s" ∧
    _format_duration (PyVal.int 125) = Except.ok "2m 5s" ∧
    _format_duration (PyVal.int 3725) = Except.ok "1h 2m 5s" ∧
    _format_duration (PyVal.float 251 2) = Except.ok "2m 5s" := by
  refine ⟨rfl, ?_, ?_, rfl, rfl, rfl, rfl⟩
  · intro n
    have e := durString_eq_spec n 1 one_pos
    simp only [Nat.cast_one, div_one] at e
    calc _format_duration (PyVal.int n) = Except.ok (durString n 1) := rfl
      _ = Except.ok (durationSpecString (n : ℚ)) := by rw [e]
  · intro n d hd
    have e := durString_eq_spec n d hd
    calc _format_duration (PyVal.float n d) = Except.ok (durString n d) := rfl
      _ = Except.ok (durationSpecString ((n : ℚ) / (d : ℚ))) := by rw [e]

/-- Witness for C2: the fractional conjunct applied at 251/2 = 125.5 s. -/
theorem C2_format_duration_correct_witness :
    (0 : ℕ) < 2 ∧
    _format_duration (PyVal.float 251 2) =
      Except.ok (durationSpecString (((251 : ℤ) : ℚ) / ((2 : ℕ) : ℚ))) :=
  ⟨by decide, C2_format_duration_correct.2.2.1 251 2 (by decide)⟩

/-- Rendering of one zone's second count as the spec describes the
`"{display_name}: {duration}"` line: `None` seconds give the "N/A"
placeholder, numeric seconds the duration string.  (Non-numeric seconds,
on which the module would raise, are excluded by well-formedness.) -/
def zoneDurRender (v : PyVal) : String :=
  match v with
  | PyVal.none => "N/A"
  | v =>
    match v.toNum with
    | Option.some (n, d) => durString n d
    | Option.none => ""

/-- Zone-section rendering as described by the spec (§4.2): an empty
mapping contributes nothing; otherwise a header line from the label
followed by one indented line per entry, in the mapping's insertion order,
with the display name looked up in the vocabulary table and the raw zone
code as fallback. -/
def zoneSpecLines (entries : List (String × PyVal)) (label : String)
    (names : List (String × String)) : List String :=
  if entries.isEmpty then []
  else
    (label ++ ":") ::
      entries.map fun p => "  " ++ ((assocFind names p.1).getD p.1) ++ ": " ++
        zoneDurRender p.2

theorem duration_eq_render {v : PyVal} (h : numOrNoneB v = true) :
    _format_duration v = Except.ok (zoneDurRender v) := by
  cases v with
  | none => rfl
  | int n => rfl
  | float n d => rfl
  | bool b => rfl
  | str s => simp [numOrNoneB, isNone, PyVal.toNum] at h
  | dt d => simp [numOrNoneB, isNone, PyVal.toNum] at h
  | dict e => simp [numOrNoneB, isNone, PyVal.toNum] at h
  | list l => simp [numOrNoneB, isNone, PyVal.toNum] at h

theorem zoneLines_eq_map (names : List (String × String)) :
    ∀ entries : List (String × PyVal),
      (entries.all fun p => numOrNoneB p.2) = true →
      zoneLines names entries =
        Except.ok (entries.map fun p =>
          "  " ++ ((assocFind names p.1).getD p.1) ++ ": " ++ zoneDurRender p.2) := by
  intro entries h
  induction entries with
  | nil => rfl
  | cons p rest ih =>
    obtain ⟨zk, sec⟩ := p
    simp only [List.all_cons, Bool.and_eq_true] at h
    simp only [zoneLines]
    rw [duration_eq_render h.1, ok_bind, ih h.2, ok_bind]
    rfl

/-- C4: `_format_time_in_zone` yields zero lines for an absent or empty
zone mapping; otherwise it yields the label as a header line followed by
one indented `"{display_name}: {duration}"` line per entry, in the
mapping's insertion order (not sorted), where the display name comes from
the zone-vocabulary table and falls back to the raw zone code when the
table has no entry; the concrete case shows unsorted order ("Z5" before
"Z1") and the raw-code fallback ("Z9"). -/
theorem C4_time_in_zone_correct :
    (∀ label : String, ∀ names : List (String × String),
      _format_time_in_zone PyVal.none label names = Except.ok []) ∧
    (∀ label : String, ∀ names : List (String × String),
      _format_time_in_zone (PyVal.dict []) label names = Except.ok []) ∧
    (∀ entries : List (String × PyVal), ∀ label : String,
      ∀ names : List (String × String),
      (entries.all fun p => numOrNoneB p.2) = true →
      _format_time_in_zone (PyVal.dict entries) label names =
        Except.ok (zoneSpecLines entries label names)) ∧
    _format_time_in_zone
        (PyVal.dict [("Z5", PyVal.int 60), ("Z1", PyVal.int 30), ("Z9", PyVal.int 5)])
        "Heart Rate Zones" HR_ZONE_NAMES =
      Except.ok ["Heart Rate Zones:", "  Z5 VO2 Max: 1m 0s", "  Z1 Recovery: 30s",
        "  Z9: 5s"] := by
  refine ⟨fun label names => rfl, fun label names => rfl, ?_, rfl⟩
  intro entries label names h
  simp only [_format_time_in_zone, zoneSpecLines]
  by_cases he : entries.isEmpty
  · rw [if_pos he, if_pos he]
  · rw [if_neg he, if_neg he, zoneLines_eq_map names entries h, ok_bind]

/-- Witness for C4: the general conjunct applied to a concrete mapping
with an unknown zone code and a `None` value. -/
theorem C4_time_in_zone_correct_witness :
    (([("Z3", PyVal.float 3601 2), ("zX", PyVal.none)] :
        List (String × PyVal)).all fun p => numOrNoneB p.2) = true ∧
    _format_time_in_zone (PyVal.dict [("Z3", PyVal.float 3601 2), ("zX", PyVal.none)])
        "Power Zones" POWER_ZONE_NAMES =
      Except.ok (zoneSpecLines [("Z3", PyVal.float 3601 2), ("zX", PyVal.none)]
        "Power Zones" POWER_ZONE_NAMES) :=
  ⟨by decide,
   C4_time_in_zone_correct.2.2.1 [("Z3", PyVal.float 3601 2), ("zX", PyVal.none)]
     "Power Zones" POWER_ZONE_NAMES (by decide)⟩

theorem flatMap_guard_eq {α β : Type} (p : α → Bool) (f : α → β) :
    ∀ l : List α, (l.flatMap fun b => if p b then [f b] else []) = (l.filter p).map f := by
  intro l
  induction l with
  | nil => rfl
  | cons a rest ih =>
    by_cases hp : p a = true
    · simp [List.flatMap_cons, List.filter_cons, hp, ih]
    · simp [List.flatMap_cons, List.filter_cons, hp, ih]

/-- C5: in `format_workout_details`, a non-empty power-duration curve is
rendered as the header followed by exactly the benchmark labels present in
the curve, in the fixed canonical `POWER_DURATION_BENCHMARKS` order ("1s"
through "5h"), skipping absent labels — characterized as filter-then-map
over the canonical list, hence independent of the curve's own insertion
order, as the two concrete curves (identical entries, opposite insertion
order) show: "1s" renders before "5min" in both. -/
theorem C5_pdc_canonical_order :
    (∀ entries : List (String × PyVal), ¬entries.isEmpty = true →
      pdcLines (PyVal.dict entries) =
        "Power Duration Curve:" ::
          ((POWER_DURATION_BENCHMARKS.filter fun b => hasKey entries b).map fun b =>
            "  " ++ b ++ ": " ++ pyStr (pyGet entries b) ++ " W") ++ [""]) ∧
    pdcLines PyVal.none = [] ∧
    pdcLines (PyVal.dict []) = [] ∧
    pdcLines (PyVal.dict [("5min", PyVal.int 300), ("1s", PyVal.int 900)]) =
      ["Power Duration Curve:", "  1s: 900 W", "  5min: 300 W", ""] ∧
    pdcLines (PyVal.dict [("1s", PyVal.int 900), ("5min", PyVal.int 300)]) =
      ["Power Duration Curve:", "  1s: 900 W", "  5min: 300 W", ""] := by
  refine ⟨?_, rfl, rfl, rfl, rfl⟩
  intro entries he
  simp only [pdcLines]
  rw [if_neg he]
  rw [flatMap_guard_eq (fun b => hasKey entries b)
    (fun b => "  " ++ b ++ ": " ++ pyStr (pyGet entries b) ++ " W")
    POWER_DURATION_BENCHMARKS]

/-- Witness for C5: the general conjunct applied to a singleton curve. -/
theorem C5_pdc_canonical_order_witness :
    ¬([("3min", PyVal.int 420)] : List (String × PyVal)).isEmpty = true ∧
    pdcLines (PyVal.dict [("3min", PyVal.int 420)]) =
      "Power Duration Curve:" ::
        ((POWER_DURATION_BENCHMARKS.filter fun b =>
            hasKey [("3min", PyVal.int 420)] b).map fun b =>
          "  " ++ b ++ ": " ++ pyStr (pyGet [("3min", PyVal.int 420)] b) ++ " W") ++
        [""] :=
  ⟨by decide, C5_pdc_canonical_order.1 [("3min", PyVal.int 420)] (by decide)⟩

theorem truthySub_eq (r : Record) (k : String) (g : PyVal → List String) :
    truthySub r k g =
      Except.ok (if truthy (pyGet r k) then g (pyGet r k) else []) := by
  unfold truthySub
  by_cases h : truthy (pyGet r k) = true
  · rw [if_pos h, if_pos h, pySub_eq_ok (truthy_not_none h), ok_bind]
  · rw [if_neg h, if_neg h]

/-- Description lines of the amended event summary: a line appears iff the
description is present as a non-empty string, truncated to its first 100
characters plus "..." when longer than 100 characters. -/
def descSpecLines (event : Record) : List String :=
  match pyGet event "description" with
  | PyVal.str s =>
    if s.data.isEmpty then []
    else ["  Description: " ++
      (if s.length > 100 then String.mk (s.data.take 100) ++ "..." else s)]
  | _ => []

theorem eventDescLine_eq {event : Record}
    (h : strOrNoneB (pyGet event "description") = true) :
    eventDescLine event = Except.ok (descSpecLines event) := by
  unfold eventDescLine descSpecLines
  by_cases ht : truthy (pyGet event "description") = true
  · rw [if_pos ht, pySub_eq_ok (truthy_not_none ht), ok_bind]
    cases hv : pyGet event "description" with
    | str s =>
      have hs : s.data.isEmpty = false := by
        rw [hv] at ht
        simpa [truthy] using ht
      simp [hs]
    | none => rw [hv] at ht; simp [truthy] at ht
    | bool b => rw [hv] at h; simp [strOrNoneB] at h
    | int n => rw [hv] at h; simp [strOrNoneB] at h
    | float n d => rw [hv] at h; simp [strOrNoneB] at h
    | dt d => rw [hv] at h; simp [strOrNoneB] at h
    | dict e => rw [hv] at h; simp [strOrNoneB] at h
    | list l => rw [hv] at h; simp [strOrNoneB] at h
  · rw [if_neg ht]
    cases hv : pyGet event "description" with
    | str s =>
      have hs : s.data.isEmpty = true := by
        rw [hv] at ht
        simpa [truthy] using ht
      simp [hs]
    | none => rfl
    | bool b => rfl
    | int n => rfl
    | float n d => rfl
    | dt d => rfl
    | dict e => rfl
    | list l => rfl

/-- The event summary with the inclusion rule as the code actually has it:
header always present; Location and Distance lines iff the field holds a
truthy value (non-null, non-zero, non-empty); Description line iff the
description is a non-empty string, truncated after 100 characters. -/
def eventSummarySpec (event : Record) : String :=
  let base : List String :=
    ["Event: " ++ pyStr (pyGetD event "name" (PyVal.str "Unnamed")),
     "  ID: " ++ pyStr (pyGetD event "id" (PyVal.str "N/A")),
     "  Date: " ++ _format_datetime (pyGet event "event_date"),
     "  Type: " ++ pyStr (pyGetD event "event_type" (PyVal.str "Unknown")),
     "  Status: " ++ pyStr (pyGetD event "status" (PyVal.str "N/A"))]
  let loc : List String :=
    if truthy (pyGet event "location") then ["  Location: " ++ pyStr (pyGet event "location")]
    else []
  let dist : List String :=
    if truthy (pyGet event "distance_km") then
      ["  Distance: " ++ pyStr (pyGet event "distance_km") ++ " km"]
    else []
  String.intercalate "\n" (base ++ loc ++ dist ++ descSpecLines event)

/-- C6 counterexample: in the record `{"distance_km": 0}` the field is
present and non-null, yet `format_event_summary` emits no Distance line —
the code guards these lines by Python truthiness, not by presence, so
"appends a Distance line iff the field is present" fails here. -/
theorem C6_distance_present_but_omitted :
    hasKey [("distance_km", PyVal.int 0)] "distance_km" = true ∧
    isNone (pyGet [("distance_km", PyVal.int 0)] "distance_km") = false ∧
    format_event_summary [("distance_km", PyVal.int 0)] =
      Except.ok "Event: Unnamed\n  ID: N/A\n  Date: N/A\n  Type: Unknown\n  Status: N/A" :=
  ⟨by decide, by decide, rfl⟩

/-- C6 amended: `format_event_summary` always emits the five header lines
and appends the Location, Distance and Description lines iff the field
holds a truthy value (non-null, non-zero, non-empty); a description longer
than 100 characters renders as its first 100 characters plus "...", one of
at most 100 characters unmodified — shown by the general equality with
`eventSummarySpec` and by the 150- and 50-character description cases. -/
theorem C6_event_summary_truthy_inclusion :
    (∀ e : Record, wfEvent e = true →
      format_event_summary e = Except.ok (eventSummarySpec e)) ∧
    format_event_summary [("description", PyVal.str (String.mk (List.replicate 150 'a')))] =
      Except.ok ("Event: Unnamed\n  ID: N/A\n  Date: N/A\n  Type: Unknown\n  Status: N/A" ++
        "\n  Description: " ++ String.mk (List.replicate 100 'a') ++ "...") ∧
    format_event_summary [("description", PyVal.str (String.mk (List.replicate 50 'b')))] =
      Except.ok ("Event: Unnamed\n  ID: N/A\n  Date: N/A\n  Type: Unknown\n  Status: N/A" ++
        "\n  Description: " ++ String.mk (List.replicate 50 'b')) := by
  refine ⟨?_, rfl, rfl⟩
  intro e h
  simp only [wfEvent, Bool.and_eq_true] at h
  unfold format_event_summary eventSummarySpec
  rw [truthySub_eq, ok_bind, truthySub_eq, ok_bind, eventDescLine_eq h.1, ok_bind]

/-- Witness for C6's amended theorem at a record with a truthy distance. -/
theorem C6_event_summary_truthy_inclusion_witness :
    wfEvent [("distance_km", PyVal.int 120)] = true ∧
    format_event_summary [("distance_km", PyVal.int 120)] =
      Except.ok (eventSummarySpec [("distance_km", PyVal.int 120)]) :=
  ⟨by decide, C6_event_summary_truthy_inclusion.1 [("distance_km", PyVal.int 120)]
    (by decide)⟩

theorem guardSubPlain_eq (r : Record) (k : String) (g : PyVal → List String) :
    guardSubPlain r k g =
      Except.ok (if isNone (pyGet r k) then [] else g (pyGet r k)) := by
  unfold guardSubPlain
  by_cases h : isNone (pyGet r k) = true
  · rw [if_pos h, if_pos h]
  · have hb : isNone (pyGet r k) = false := by simpa using h
    rw [if_neg h, if_neg h, pySub_eq_ok hb, ok_bind]

/-- Settings parts as the claim describes them: one line per boolean field,
included iff the stored value is non-null, rendered "Yes"/"No" by its
truth value. -/
def settingsSpec (event : Record) : List String :=
  (if isNone (pyGet event "auto_calculate_intensity") then []
   else ["  Auto Calculate Intensity: " ++
     (if truthy (pyGet event "auto_calculate_intensity") then "Yes" else "No")]) ++
  (if isNone (pyGet event "include_drafting") then []
   else ["  Include Drafting: " ++
     (if truthy (pyGet event "include_drafting") then "Yes" else "No")])

/-- C8: the Settings parts of `format_event_details` contain a line per
boolean field iff that field is present non-null (so the Settings section,
emitted iff the parts are non-empty, appears iff at least one of the two
fields is non-null); booleans render "Yes" when true, "No" when false, and
a field explicitly `False` still yields its line — as the concrete record
`{"auto_calculate_intensity": False}` shows in the full output. -/
theorem C8_event_settings_iff_non_null :
    (∀ e : Record, eventSettingsLines e = Except.ok (settingsSpec e)) ∧
    (∀ e : Record, settingsSpec e ≠ [] ↔
      (isNone (pyGet e "auto_calculate_intensity") = false ∨
       isNone (pyGet e "include_drafting") = false)) ∧
    format_event_details [("auto_calculate_intensity", PyVal.bool false)] =
      Except.ok ("Event Details:\n\nGeneral Information:\n  Name: Unnamed\n  ID: N/A" ++
        "\n  Date: N/A\n  Type: Unknown\n  Category: N/A\n  Status: N/A\n" ++
        "\nSettings:\n  Auto Calculate Intensity: No\n" ++
        "\nMetadata:\n  Created: N/A\n  Updated: N/A") := by
  refine ⟨?_, ?_, rfl⟩
  · intro e
    unfold eventSettingsLines settingsSpec
    rw [guardSubPlain_eq, ok_bind, guardSubPlain_eq, ok_bind]
  · intro e
    cases h1 : isNone (pyGet e "auto_calculate_intensity") <;>
      cases h2 : isNone (pyGet e "include_drafting") <;>
      simp [settingsSpec, h1, h2]

/-- Witness for C8: the parts equality at the explicit-`False` record. -/
theorem C8_event_settings_iff_non_null_witness :
    eventSettingsLines [("auto_calculate_intensity", PyVal.bool false)] =
      Except.ok (settingsSpec [("auto_calculate_intensity", PyVal.bool false)]) :=
  C8_event_settings_iff_non_null.1 [("auto_calculate_intensity", PyVal.bool false)]

/-- C9: every public assembler is deterministic — equal input records give
identical output strings.  The embedding is purely functional, like the
source, which only reads its input (`get`, subscript, iteration) and
builds fresh lists/strings, so non-mutation of the input record holds by
construction. -/
theorem C9_formatters_deterministic :
    ∀ r₁ r₂ : Record, r₁ = r₂ →
      format_workout_summary r₁ = format_workout_summary r₂ ∧
      format_workout_details r₁ = format_workout_details r₂ ∧
      format_workout_lap r₁ = format_workout_lap r₂ ∧
      format_wellness_entry r₁ = format_wellness_entry r₂ ∧
      format_event_summary r₁ = format_event_summary r₂ ∧
      format_event_details r₁ = format_event_details r₂ := by
  intro r₁ r₂ h
  subst h
  exact ⟨rfl, rfl, rfl, rfl, rfl, rfl⟩

/-- Witness for C9 at a concrete record. -/
theorem C9_formatters_deterministic_witness :
    exWorkout = exWorkout ∧
    format_workout_summary exWorkout = format_workout_summary exWorkout ∧
    format_event_details exWorkout = format_event_details exWorkout :=
  ⟨rfl, (C9_formatters_deterministic exWorkout exWorkout rfl).1,
   (C9_formatters_deterministic exWorkout exWorkout rfl).2.2.2.2.2⟩

theorem hasKey_false_assoc {e : Record} {k : String} (h : hasKey e k = false) :
    assocFind e k = Option.none := by
  unfold hasKey at h
  cases hf : assocFind e k with
  | none => rfl
  | some v => rw [hf] at h; simp [Option.isSome] at h

/-- C10: the Date line of `format_wellness_entry` falls back to the id
only when the "date" key is entirely absent (and to "N/A" when "id" is
absent too); a "date" key present with a null value renders the null
itself ("None") with no fallback — `dict.get(k, default)` substitutes the
default only on a missing key. -/
theorem C10_wellness_date_fallback :
    (∀ e : Record, hasKey e "date" = false → hasKey e "id" = false →
      wellnessDateLine e = "  Date: N/A") ∧
    (∀ e : Record, ∀ v : PyVal, hasKey e "date" = false →
      assocFind e "id" = Option.some v →
      wellnessDateLine e = "  Date: " ++ pyStr v) ∧
    (∀ e : Record, assocFind e "date" = Option.some PyVal.none →
      wellnessDateLine e = "  Date: None") ∧
    format_wellness_entry [("date", PyVal.none), ("id", PyVal.str "w1")] =
      Except.ok "Wellness Entry:\n  Date: None\n  ID: w1\n" := by
  refine ⟨?_, ?_, ?_, rfl⟩
  · intro e h1 h2
    unfold wellnessDateLine pyGetD
    rw [hasKey_false_assoc h1, hasKey_false_assoc h2]
    rfl
  · intro e v h1 h2
    unfold wellnessDateLine pyGetD
    rw [hasKey_false_assoc h1, h2]
    rfl
  · intro e h1
    unfold wellnessDateLine pyGetD
    rw [h1]
    rfl

/-- Witness for C10: the null-date conjunct at a concrete record. -/
theorem C10_wellness_date_fallback_witness :
    assocFind [("date", PyVal.none)] "date" = Option.some PyVal.none ∧
    wellnessDateLine [("date", PyVal.none)] = "  Date: None" :=
  ⟨rfl, C10_wellness_date_fallback.2.2.1 [("date", PyVal.none)] rfl⟩

/-- C7: `_format_datetime` on a string normalizes every "Z" to "+00:00"
(as `str.replace` does) before ISO-8601 parsing and renders a successful
parse as zero-padded "%Y-%m-%d %H:%M:%S"; a failed parse returns the
original string unchanged rather than raising; an already-structured
datetime is rendered directly; `None` yields "N/A".  The concrete cases
exercise a Z-suffixed timestamp, zero padding of a year, an unparsable
string, and an out-of-range month. -/
theorem C7_format_datetime_correct :
    _format_datetime PyVal.none = "N/A" ∧
    (∀ s : String, _format_datetime (PyVal.str s) =
      (match fromisoformat (pyReplace s "Z" "+00:00") with
       | Option.some d => strftimeYmdHMS d
       | Option.none => s)) ∧
    (∀ d : PyDateTime, _format_datetime (PyVal.dt d) = strftimeYmdHMS d) ∧
    pyReplace "2024-03-05T07:08:09Z" "Z" "+00:00" = "2024-03-05T07:08:09+00:00" ∧
    fromisoformat "2024-03-05T07:08:09+00:00" =
      Option.some ⟨2024, 3, 5, 7, 8, 9, 0, Option.some 0⟩ ∧
    _format_datetime (PyVal.str "2024-03-05T07:08:09Z") = "2024-03-05 07:08:09" ∧
    _format_datetime (PyVal.str "0007-01-02T03:04:05") = "0007-01-02 03:04:05" ∧
    fromisoformat "not-a-date" = Option.none ∧
    _format_datetime (PyVal.str "not-a-date") = "not-a-date" ∧
    _format_datetime (PyVal.str "2024-13-01T00:00:00") = "2024-13-01T00:00:00" :=
  ⟨rfl, fun s => rfl, fun d => rfl, by decide, by decide, by decide, by decide,
   by decide, by decide, by decide⟩

theorem exp_ninetyfive_hundredths_lt : Real.exp ((19 : ℝ)/20) < 25858/10000 := by
  have hx : |(19/20 : ℝ)| ≤ 1 := by
    rw [abs_of_nonneg (by norm_num : (0:ℝ) ≤ 19/20)]
    norm_num
  have hb := (abs_le.mp (Real.exp_bound hx (by norm_num : 0 < 10))).2
  rw [abs_of_nonneg (by norm_num : (0:ℝ) ≤ 19/20)] at hb
  simp only [Finset.sum_range_succ, Finset.sum_range_zero, Nat.factorial] at hb
  norm_num at hb
  linarith

theorem exp_nineteen_fifths_lt : Real.exp ((19 : ℝ)/5) < 45 := by
  have h4 : ((19 : ℝ)/5) = (4 : ℕ) * ((19 : ℝ)/20) := by norm_num
  rw [h4, Real.exp_nat_mul]
  have hb := exp_ninetyfive_hundredths_lt
  calc Real.exp ((19 : ℝ)/20) ^ 4 ≤ ((25858 : ℝ)/10000) ^ 4 :=
        pow_le_pow_left₀ (Real.exp_nonneg _) hb.le 4
    _ < 45 := by norm_num

theorem log45_gt : (19 : ℝ)/5 < Real.log 45 := by
  rw [Real.lt_log_iff_exp_lt (by norm_num : (0:ℝ) < 45)]
  exact exp_nineteen_fifths_lt

theorem log45_lt : Real.log 45 < (153 : ℝ)/40 := by
  rw [Real.log_lt_iff_lt_exp (by norm_num : (0:ℝ) < 45)]
  have hs := Real.sum_le_exp_of_nonneg (by norm_num : (0:ℝ) ≤ 153/40) 9
  calc (45 : ℝ) < ∑ i ∈ Finset.range 9, ((153 : ℝ)/40) ^ i / i.factorial := by
        simp only [Finset.sum_range_succ, Finset.sum_range_zero, Nat.factorial]
        norm_num
    _ ≤ Real.exp ((153 : ℝ)/40) := hs

theorem pyRound_log45 : pyRound (Real.log 45 * 20) = 76 := by
  have h1 : (76 : ℝ) < Real.log 45 * 20 := by nlinarith [log45_gt]
  have h2 : Real.log 45 * 20 < (765 : ℝ)/10 := by nlinarith [log45_lt]
  have hfl : ⌊Real.log 45 * 20⌋ = (76 : ℤ) := by
    rw [Int.floor_eq_iff]
    constructor
    · push_cast
      linarith
    · push_cast
      linarith
  have hfr : Int.fract (Real.log 45 * 20) ≠ 1/2 := by
    unfold Int.fract
    rw [hfl]
    intro hc
    push_cast at hc
    linarith
  unfold pyRound
  rw [if_neg hfr, round_eq, Int.floor_eq_iff]
  constructor
  · push_cast
    linarith
  · push_cast
    linarith

theorem hrvScore_45 : hrvScore 45 1 = 76 := by
  unfold hrvScore
  have e : ((45 : ℤ) : ℝ) / ((1 : ℕ) : ℝ) = 45 := by norm_num
  rw [e]
  exact pyRound_log45

theorem hrv_int_nonpos {n : ℤ} (hn : n ≤ 0) :
    _calculate_hrv_score (PyVal.int n) = Except.ok Option.none := by
  unfold _calculate_hrv_score
  simp only [PyVal.toNum]
  rw [if_pos hn]

theorem hrv_float_nonpos {n : ℤ} (d : ℕ) (hn : n ≤ 0) :
    _calculate_hrv_score (PyVal.float n d) = Except.ok Option.none := by
  unfold _calculate_hrv_score
  simp only [PyVal.toNum]
  rw [if_pos hn]

theorem hrv_float_pos {n : ℤ} (d : ℕ) (hn : 0 < n) :
    _calculate_hrv_score (PyVal.float n d) =
      Except.ok (Option.some (pyRound (Real.log ((n : ℝ) / (d : ℝ)) * 20))) := by
  unfold _calculate_hrv_score
  simp only [PyVal.toNum]
  rw [if_neg (not_le.mpr hn)]
  rfl

theorem isNone_eq {v : PyVal} (h : isNone v = true) : v = PyVal.none := by
  cases v <;> simp_all [isNone]

theorem hrvLine_of_absent {e : Record} (h : isNone (pyGet e "hrv_rmssd") = true) :
    wellnessHrvLine e = Except.ok [] := by
  unfold wellnessHrvLine
  rw [isNone_eq h]
  rfl

theorem hrvLine_of_nonpos {e : Record} {n : ℤ} {d : ℕ}
    (hv : pyGet e "hrv_rmssd" = PyVal.float n d) (hn : n ≤ 0) :
    wellnessHrvLine e = Except.ok [] := by
  unfold wellnessHrvLine
  rw [hv, hrv_float_nonpos d hn, ok_bind]

/-- C3: `_calculate_hrv_score` yields no score for a null, zero or
negative RMSSD (so `format_wellness_entry` emits no HRV Score line in
those cases, as both the line lemmas and the concrete full output show),
and for positive RMSSD yields `round(ln(rmssd) * 20)` with the host
language's banker's rounding (`pyRound`), `math.log` modelled as the exact
real logarithm; in particular rmssd = 45 scores 76. -/
theorem C3_hrv_score_correct :
    _calculate_hrv_score PyVal.none = Except.ok Option.none ∧
    (∀ n : ℤ, n ≤ 0 → _calculate_hrv_score (PyVal.int n) = Except.ok Option.none) ∧
    (∀ n : ℤ, ∀ d : ℕ, n ≤ 0 →
      _calculate_hrv_score (PyVal.float n d) = Except.ok Option.none) ∧
    (∀ n : ℤ, ∀ d : ℕ, 0 < n →
      _calculate_hrv_score (PyVal.float n d) =
        Except.ok (Option.some (pyRound (Real.log ((n : ℝ) / (d : ℝ)) * 20)))) ∧
    _calculate_hrv_score (PyVal.int 45) = Except.ok (Option.some 76) ∧
    (∀ e : Record, isNone (pyGet e "hrv_rmssd") = true →
      wellnessHrvLine e = Except.ok []) ∧
    (∀ e : Record, ∀ n : ℤ, ∀ d : ℕ, pyGet e "hrv_rmssd" = PyVal.float n d → n ≤ 0 →
      wellnessHrvLine e = Except.ok []) ∧
    format_wellness_entry
        [("hrv_rmssd", PyVal.float (-5) 1), ("resting_hr", PyVal.int 44)] =
      Except.ok
        "Wellness Entry:\n  Date: N/A\n  ID: N/A\n\nRecovery Metrics:\n  Resting HR: 44 bpm\n" := by
  refine ⟨rfl, fun n hn => hrv_int_nonpos hn, fun n d hn => hrv_float_nonpos d hn,
    fun n d hn => hrv_float_pos d hn, ?_, fun e he => hrvLine_of_absent he,
    fun e n d hv hn => hrvLine_of_nonpos hv hn, rfl⟩
  unfold _calculate_hrv_score
  simp only [PyVal.toNum]
  rw [if_neg (by norm_num : ¬(45 : ℤ) ≤ 0)]
  rw [hrvScore_45]

/-- Witness for C3: the positive and non-positive float conjuncts applied
at 2/3 and -5. -/
theorem C3_hrv_score_correct_witness :
    (0 : ℤ) < 2 ∧
    _calculate_hrv_score (PyVal.float 2 3) =
      Except.ok (Option.some (pyRound (Real.log (((2 : ℤ) : ℝ) / ((3 : ℕ) : ℝ)) * 20))) ∧
    (-5 : ℤ) ≤ 0 ∧
    _calculate_hrv_score (PyVal.float (-5) 1) = Except.ok Option.none :=
  ⟨by norm_num, C3_hrv_score_correct.2.2.2.1 2 3 (by norm_num), by norm_num,
   C3_hrv_score_correct.2.2.1 (-5) 1 (by norm_num)⟩
